import Mathlib

/-!
Verification of the kre8 sound-catalog pipeline.

Stage 1 (`build_catalog.py`) assembles six hand-authored source tables into a
flat list of `SoundEntry` records.  Stage 2 (`generate_embeddings.py`) reads
that list back as JSON objects, derives a `search_text` per record, runs a
batch embedding backend over the texts, and attaches vector and text back onto
each record.  Both stages are embedded shallowly below: the data tables are
transcribed verbatim from the source, the loop bodies become mapping
functions, file I/O is modelled by passing the decoded value, and the
embedding backends are abstract encode functions.
-/

/-- A catalog record as produced by stage 1 (the `SoundEntry` TypedDict of
build_catalog.py).  The Python field `example` is called `usage` here only
because `example` is a Lean keyword; it carries the same string. -/
structure SoundEntry where
  id : String
  name : String
  description : String
  source : String
  category : String
  tags : List String
  usage : String
deriving DecidableEq

/-- Shape of the gm_soundfonts and builtin_synths table values: description,
category, tags and an explicit example string (`usage`). -/
structure Entry4 where
  description : String
  category : String
  tags : List String
  usage : String
deriving DecidableEq

/-- Shape of the dirt_samples, vcsl_instruments and wavetables table values:
description, category and tags (the example string is generated by the loop). -/
structure Entry3 where
  description : String
  category : String
  tags : List String
deriving DecidableEq

/-- Shape of the drum_machines table values: description and tags only
(category and example are generated by the loop). -/
structure Entry2 where
  description : String
  tags : List String
deriving DecidableEq
/-- Chunk 1 of the GM soundfont source table (entries 1-40 in insertion order), transcribed from build_catalog.py. -/
def gm_soundfonts_c1 : List (String × Entry4) := [
  ("gm_acoustic_grand_piano", ⟨"Grand piano, realistic sampled acoustic piano. Best for classical, jazz, ballads. Warm, full-bodied tone with natural resonance.", "keyboards", ["piano", "acoustic", "classical", "jazz", "ballad", "warm", "orchestral"], "note(\"c4 e4 g4\").s(\"gm_acoustic_grand_piano\")"⟩),
  ("gm_bright_acoustic_piano", ⟨"Bright acoustic piano with more presence in high frequencies. Cuts through mixes well. Good for pop and contemporary.", "keyboards", ["piano", "acoustic", "bright", "pop", "contemporary"], "note(\"c4 e4 g4\").s(\"gm_bright_acoustic_piano\")"⟩),
  ("gm_electric_grand_piano", ⟨"Electric grand piano, hybrid between acoustic and electric. Vintage 70s sound.", "keyboards", ["piano", "electric", "vintage", "70s"], "note(\"c4 e4 g4\").s(\"gm_electric_grand_piano\")"⟩),
  ("gm_honky_tonk_piano", ⟨"Detuned saloon piano with ragtime character. Slightly out of tune for authentic honky-tonk feel.", "keyboards", ["piano", "honky-tonk", "ragtime", "detuned", "vintage", "saloon"], "note(\"c4 e4 g4\").s(\"gm_honky_tonk_piano\")"⟩),
  ("gm_epiano1", ⟨"Electric piano 1, Rhodes-like warm electric piano. Classic soul, R&B, jazz fusion sound. Smooth and bell-like.", "keyboards", ["piano", "electric", "rhodes", "soul", "r&b", "jazz", "warm", "bell-like"], "note(\"c4 e4 g4\").s(\"gm_epiano1\")"⟩),
  ("gm_epiano2", ⟨"Electric piano 2, brighter electric piano variant. More bite than epiano1. FM-style tines.", "keyboards", ["piano", "electric", "bright", "fm", "tines"], "note(\"c4 e4 g4\").s(\"gm_epiano2\")"⟩),
  ("gm_harpsichord", ⟨"Baroque harpsichord with plucked string character. Essential for baroque and renaissance music.", "keyboards", ["harpsichord", "baroque", "renaissance", "plucked", "classical", "historical"], "note(\"c4 e4 g4\").s(\"gm_harpsichord\")"⟩),
  ("gm_clavinet", ⟨"Funky clavinet, percussive keyboard. Classic funk and soul sound. Wah-wah compatible.", "keyboards", ["clavinet", "funk", "soul", "percussive", "wah"], "note(\"c4 e4 g4\").s(\"gm_clavinet\")"⟩),
  ("gm_celesta", ⟨"Celesta, magical bell-like keyboard. Sparkling, ethereal quality. Think Nutcracker Suite.", "keyboards", ["celesta", "bells", "magical", "ethereal", "orchestral", "christmas"], "note(\"c5 e5 g5\").s(\"gm_celesta\")"⟩),
  ("gm_music_box", ⟨"Music box, delicate mechanical bell sound. Nostalgic, toy-like, innocent quality.", "keyboards", ["music-box", "bells", "toy", "nostalgic", "innocent", "delicate"], "note(\"c5 e5 g5\").s(\"gm_music_box\")"⟩),
  ("gm_vibraphone", ⟨"Vibraphone, mellow mallet percussion with motor vibrato. Jazz standard, smooth and warm.", "chromatic_percussion", ["vibraphone", "vibes", "jazz", "mellow", "mallet", "smooth"], "note(\"c4 e4 g4\").s(\"gm_vibraphone\")"⟩),
  ("gm_marimba", ⟨"Marimba, warm wooden mallet percussion. African and Latin influences. Rich low end.", "chromatic_percussion", ["marimba", "mallet", "wooden", "african", "latin", "warm"], "note(\"c4 e4 g4\").s(\"gm_marimba\")"⟩),
  ("gm_xylophone", ⟨"Xylophone, bright wooden mallet percussion. Crisp attack, short decay. Cartoon-like.", "chromatic_percussion", ["xylophone", "mallet", "wooden", "bright", "crisp", "cartoon"], "note(\"c5 e5 g5\").s(\"gm_xylophone\")"⟩),
  ("gm_glockenspiel", ⟨"Glockenspiel, bright metallic bells. High-pitched, sparkling, orchestral.", "chromatic_percussion", ["glockenspiel", "bells", "metallic", "bright", "sparkling", "orchestral"], "note(\"c6 e6 g6\").s(\"gm_glockenspiel\")"⟩),
  ("gm_tubular_bells", ⟨"Tubular bells, orchestral chimes. Majestic, ceremonial, church-like.", "chromatic_percussion", ["tubular-bells", "chimes", "orchestral", "majestic", "church", "ceremonial"], "note(\"c4 e4 g4\").s(\"gm_tubular_bells\")"⟩),
  ("gm_church_organ", ⟨"Pipe organ, majestic church organ with full stops. Sacred, powerful, reverberant.", "organ", ["organ", "pipe", "church", "sacred", "majestic", "classical"], "note(\"c3 e3 g3\").s(\"gm_church_organ\")"⟩),
  ("gm_reed_organ", ⟨"Reed organ, harmonium-style pump organ. Vintage, folk, Americana.", "organ", ["organ", "reed", "harmonium", "vintage", "folk", "americana"], "note(\"c4 e4 g4\").s(\"gm_reed_organ\")"⟩),
  ("gm_accordion", ⟨"Accordion, bellows-driven free-reed instrument. French, tango, folk music.", "organ", ["accordion", "bellows", "french", "tango", "folk", "musette"], "note(\"c4 e4 g4\").s(\"gm_accordion\")"⟩),
  ("gm_harmonica", ⟨"Harmonica, blues harp. Expressive, bending notes, folk and blues essential.", "organ", ["harmonica", "blues", "harp", "folk", "expressive"], "note(\"c4 e4 g4\").s(\"gm_harmonica\")"⟩),
  ("gm_acoustic_guitar_nylon", ⟨"Classical nylon-string guitar. Soft, warm, fingerpicking. Spanish, classical, bossa nova.", "guitar", ["guitar", "acoustic", "nylon", "classical", "spanish", "bossa-nova", "fingerpicking"], "note(\"c4 e4 g4\").s(\"gm_acoustic_guitar_nylon\")"⟩),
  ("gm_acoustic_guitar_steel", ⟨"Steel-string acoustic guitar. Bright, strumming, folk and country. Singer-songwriter staple.", "guitar", ["guitar", "acoustic", "steel", "folk", "country", "strumming", "bright"], "note(\"c4 e4 g4\").s(\"gm_acoustic_guitar_steel\")"⟩),
  ("gm_electric_guitar_clean", ⟨"Clean electric guitar. Clear, bell-like, versatile. Funk, jazz, pop rhythm.", "guitar", ["guitar", "electric", "clean", "funk", "jazz", "pop", "rhythm"], "note(\"c4 e4 g4\").s(\"gm_electric_guitar_clean\")"⟩),
  ("gm_electric_guitar_jazz", ⟨"Jazz electric guitar. Warm, hollow-body tone. Smooth jazz, bebop.", "guitar", ["guitar", "electric", "jazz", "warm", "hollow-body", "bebop"], "note(\"c4 e4 g4\").s(\"gm_electric_guitar_jazz\")"⟩),
  ("gm_electric_guitar_muted", ⟨"Muted electric guitar. Palm-muted, chunky, rhythmic. Funk and rock rhythm.", "guitar", ["guitar", "electric", "muted", "palm-mute", "funk", "rock", "rhythmic"], "note(\"c4 e4 g4\").s(\"gm_electric_guitar_muted\")"⟩),
  ("gm_overdriven_guitar", ⟨"Overdriven electric guitar. Crunchy, warm distortion. Classic rock, blues rock.", "guitar", ["guitar", "electric", "overdrive", "crunch", "rock", "blues"], "note(\"c4 e4 g4\").s(\"gm_overdriven_guitar\")"⟩),
  ("gm_distortion_guitar", ⟨"Distorted electric guitar. Heavy, aggressive, saturated. Hard rock, metal.", "guitar", ["guitar", "electric", "distortion", "heavy", "metal", "rock", "aggressive"], "note(\"c4 e4 g4\").s(\"gm_distortion_guitar\")"⟩),
  ("gm_guitar_harmonics", ⟨"Guitar harmonics. Bell-like overtones, ethereal. Ambient textures.", "guitar", ["guitar", "harmonics", "bell-like", "ethereal", "ambient", "overtones"], "note(\"c5 e5 g5\").s(\"gm_guitar_harmonics\")"⟩),
  ("gm_acoustic_bass", ⟨"Upright acoustic bass, double bass. Jazz, orchestral, warm woody tone.", "bass", ["bass", "acoustic", "upright", "double-bass", "jazz", "orchestral", "woody"], "note(\"c2 e2 g2\").s(\"gm_acoustic_bass\")"⟩),
  ("gm_electric_bass_finger", ⟨"Electric bass, fingerstyle. Round, warm, versatile. Most common bass sound.", "bass", ["bass", "electric", "finger", "warm", "round", "versatile"], "note(\"c2 e2 g2\").s(\"gm_electric_bass_finger\")"⟩),
  ("gm_electric_bass_pick", ⟨"Electric bass, picked. Punchy, bright attack. Rock, punk.", "bass", ["bass", "electric", "pick", "punchy", "bright", "rock", "punk"], "note(\"c2 e2 g2\").s(\"gm_electric_bass_pick\")"⟩),
  ("gm_slap_bass_1", ⟨"Slap bass. Funky, percussive, thumb-slap technique. Funk, disco.", "bass", ["bass", "slap", "funk", "percussive", "disco", "thumb"], "note(\"c2 e2 g2\").s(\"gm_slap_bass_1\")"⟩),
  ("gm_slap_bass_2", ⟨"Slap bass variant. Different slap bass character, more aggressive.", "bass", ["bass", "slap", "funk", "aggressive"], "note(\"c2 e2 g2\").s(\"gm_slap_bass_2\")"⟩),
  ("gm_synth_bass_1", ⟨"Synth bass 1. Electronic, punchy, subby. EDM, electronic, pop.", "bass", ["bass", "synth", "electronic", "sub", "edm", "punchy"], "note(\"c2 e2 g2\").s(\"gm_synth_bass_1\")"⟩),
  ("gm_synth_bass_2", ⟨"Synth bass 2. Resonant, squelchy synth bass. Acid, electronic.", "bass", ["bass", "synth", "resonant", "squelchy", "acid", "electronic"], "note(\"c2 e2 g2\").s(\"gm_synth_bass_2\")"⟩),
  ("gm_violin", ⟨"Solo violin. Expressive, emotional, classical. Lead melodic instrument.", "strings", ["violin", "strings", "orchestral", "classical", "solo", "expressive", "emotional"], "note(\"c5 e5 g5\").s(\"gm_violin\")"⟩),
  ("gm_viola", ⟨"Solo viola. Warmer than violin, alto range. Rich, melancholic.", "strings", ["viola", "strings", "orchestral", "classical", "warm", "alto", "melancholic"], "note(\"c4 e4 g4\").s(\"gm_viola\")"⟩),
  ("gm_cello", ⟨"Solo cello. Deep, rich, emotional. Tenor/bass range strings. Cinematic.", "strings", ["cello", "strings", "orchestral", "classical", "deep", "rich", "cinematic", "emotional"], "note(\"c3 e3 g3\").s(\"gm_cello\")"⟩),
  ("gm_contrabass", ⟨"Double bass, contrabass. Deepest orchestral string. Foundation, gravitas.", "strings", ["contrabass", "double-bass", "strings", "orchestral", "deep", "foundation"], "note(\"c2 e2 g2\").s(\"gm_contrabass\")"⟩),
  ("gm_tremolo_strings", ⟨"Tremolo strings. Rapid bowing, tension, suspense. Film scores.", "strings", ["strings", "tremolo", "tension", "suspense", "film", "orchestral"], "note(\"c4 e4 g4\").s(\"gm_tremolo_strings\")"⟩),
  ("gm_pizzicato_strings", ⟨"Pizzicato strings. Plucked, playful, staccato. Light, whimsical.", "strings", ["strings", "pizzicato", "plucked", "playful", "staccato", "whimsical"], "note(\"c4 e4 g4\").s(\"gm_pizzicato_strings\")"⟩)
]

/-- Chunk 2 of the GM soundfont source table (entries 41-80 in insertion order), transcribed from build_catalog.py. -/
def gm_soundfonts_c2 : List (String × Entry4) := [
  ("gm_orchestral_harp", ⟨"Concert harp. Ethereal, sweeping, glissando. Angelic, classical, film.", "strings", ["harp", "orchestral", "ethereal", "glissando", "angelic", "classical"], "note(\"c4 e4 g4\").s(\"gm_orchestral_harp\")"⟩),
  ("gm_string_ensemble_1", ⟨"String ensemble, full section. Lush, cinematic, emotional pads. Film scores.", "strings", ["strings", "ensemble", "orchestral", "lush", "cinematic", "pads", "film"], "note(\"<[c3,e3,g3] [f3,a3,c4]>\").s(\"gm_string_ensemble_1\")"⟩),
  ("gm_string_ensemble_2", ⟨"String ensemble 2. Slower attack, more atmospheric. Ambient, cinematic.", "strings", ["strings", "ensemble", "atmospheric", "ambient", "slow-attack"], "note(\"<[c3,e3,g3] [f3,a3,c4]>\").s(\"gm_string_ensemble_2\")"⟩),
  ("gm_synth_strings_1", ⟨"Synth strings 1. Electronic string pad. 80s, synthwave, warm.", "strings", ["strings", "synth", "pad", "80s", "synthwave", "electronic", "warm"], "note(\"<[c3,e3,g3] [f3,a3,c4]>\").s(\"gm_synth_strings_1\")"⟩),
  ("gm_synth_strings_2", ⟨"Synth strings 2. Brighter synth strings. More presence.", "strings", ["strings", "synth", "bright", "electronic"], "note(\"<[c3,e3,g3] [f3,a3,c4]>\").s(\"gm_synth_strings_2\")"⟩),
  ("gm_trumpet", ⟨"Trumpet. Bright, powerful, cutting. Jazz, classical, fanfares, mariachi.", "brass", ["trumpet", "brass", "bright", "powerful", "jazz", "fanfare", "classical"], "note(\"c5 e5 g5\").s(\"gm_trumpet\")"⟩),
  ("gm_trombone", ⟨"Trombone. Warm, powerful, slide. Jazz, classical, big band.", "brass", ["trombone", "brass", "warm", "slide", "jazz", "big-band", "classical"], "note(\"c3 e3 g3\").s(\"gm_trombone\")"⟩),
  ("gm_tuba", ⟨"Tuba. Deep, powerful bass brass. Oom-pah, orchestral foundation.", "brass", ["tuba", "brass", "deep", "bass", "orchestral", "oom-pah"], "note(\"c2 e2 g2\").s(\"gm_tuba\")"⟩),
  ("gm_muted_trumpet", ⟨"Muted trumpet. Nasal, intimate, jazz. Harmon mute, smoky clubs.", "brass", ["trumpet", "muted", "brass", "jazz", "intimate", "harmon", "smoky"], "note(\"c5 e5 g5\").s(\"gm_muted_trumpet\")"⟩),
  ("gm_french_horn", ⟨"French horn. Noble, warm, orchestral. Romantic, cinematic, heroic.", "brass", ["french-horn", "brass", "noble", "warm", "orchestral", "heroic", "cinematic"], "note(\"c4 e4 g4\").s(\"gm_french_horn\")"⟩),
  ("gm_brass_section", ⟨"Brass section ensemble. Powerful, big band, orchestral hits. Fanfares.", "brass", ["brass", "section", "ensemble", "powerful", "big-band", "fanfare", "orchestral"], "note(\"<[c4,e4,g4] [d4,f4,a4]>\").s(\"gm_brass_section\")"⟩),
  ("gm_synth_brass_1", ⟨"Synth brass 1. Electronic brass stabs. 80s, disco, funk.", "brass", ["brass", "synth", "stabs", "80s", "disco", "funk", "electronic"], "note(\"<[c4,e4,g4]>\").s(\"gm_synth_brass_1\")"⟩),
  ("gm_synth_brass_2", ⟨"Synth brass 2. Softer synth brass. Pads, atmospheric.", "brass", ["brass", "synth", "soft", "pads", "atmospheric"], "note(\"<[c4,e4,g4]>\").s(\"gm_synth_brass_2\")"⟩),
  ("gm_flute", ⟨"Concert flute. Airy, bright, agile. Classical, jazz, folk, world.", "woodwind", ["flute", "woodwind", "airy", "bright", "classical", "folk"], "note(\"c5 e5 g5\").s(\"gm_flute\")"⟩),
  ("gm_piccolo", ⟨"Piccolo. Highest woodwind, piercing, brilliant. Marches, orchestral.", "woodwind", ["piccolo", "woodwind", "high", "piercing", "brilliant", "march"], "note(\"c6 e6 g6\").s(\"gm_piccolo\")"⟩),
  ("gm_recorder", ⟨"Recorder. Renaissance, folk, educational. Soft, pure tone.", "woodwind", ["recorder", "woodwind", "renaissance", "folk", "soft", "pure"], "note(\"c5 e5 g5\").s(\"gm_recorder\")"⟩),
  ("gm_pan_flute", ⟨"Pan flute. Breathy, ethnic, Andean. Mystical, world music.", "woodwind", ["pan-flute", "woodwind", "breathy", "andean", "mystical", "world"], "note(\"c5 e5 g5\").s(\"gm_pan_flute\")"⟩),
  ("gm_blown_bottle", ⟨"Blown bottle. Airy, hollow, ethereal. Ambient textures.", "woodwind", ["bottle", "blown", "airy", "hollow", "ethereal", "ambient"], "note(\"c5 e5 g5\").s(\"gm_blown_bottle\")"⟩),
  ("gm_shakuhachi", ⟨"Shakuhachi. Japanese bamboo flute. Zen, meditative, breathy.", "woodwind", ["shakuhachi", "japanese", "bamboo", "zen", "meditative", "breathy", "world"], "note(\"c5 e5 g5\").s(\"gm_shakuhachi\")"⟩),
  ("gm_whistle", ⟨"Tin whistle. Irish, Celtic, folk. Bright, agile, jigs and reels.", "woodwind", ["whistle", "tin-whistle", "irish", "celtic", "folk", "bright"], "note(\"c5 e5 g5\").s(\"gm_whistle\")"⟩),
  ("gm_ocarina", ⟨"Ocarina. Ancient wind instrument. Pure, innocent, video game nostalgia.", "woodwind", ["ocarina", "ancient", "pure", "innocent", "zelda", "game"], "note(\"c5 e5 g5\").s(\"gm_ocarina\")"⟩),
  ("gm_clarinet", ⟨"Clarinet. Warm, woody, agile. Jazz, classical, klezmer.", "woodwind", ["clarinet", "woodwind", "warm", "woody", "jazz", "classical", "klezmer"], "note(\"c4 e4 g4\").s(\"gm_clarinet\")"⟩),
  ("gm_oboe", ⟨"Oboe. Nasal, expressive, penetrating. Orchestral, pastoral.", "woodwind", ["oboe", "woodwind", "nasal", "expressive", "orchestral", "pastoral"], "note(\"c5 e5 g5\").s(\"gm_oboe\")"⟩),
  ("gm_english_horn", ⟨"English horn, cor anglais. Melancholic, warm oboe family. Romantic.", "woodwind", ["english-horn", "cor-anglais", "woodwind", "melancholic", "warm", "romantic"], "note(\"c4 e4 g4\").s(\"gm_english_horn\")"⟩),
  ("gm_bassoon", ⟨"Bassoon. Deep, reedy, sometimes comical. Orchestral bass woodwind.", "woodwind", ["bassoon", "woodwind", "deep", "reedy", "orchestral", "bass"], "note(\"c3 e3 g3\").s(\"gm_bassoon\")"⟩),
  ("gm_soprano_sax", ⟨"Soprano saxophone. Bright, penetrating, Kenny G. Jazz, smooth jazz.", "woodwind", ["saxophone", "soprano", "bright", "jazz", "smooth-jazz"], "note(\"c5 e5 g5\").s(\"gm_soprano_sax\")"⟩),
  ("gm_alto_sax", ⟨"Alto saxophone. Versatile, expressive. Jazz standard, R&B, pop.", "woodwind", ["saxophone", "alto", "versatile", "jazz", "r&b", "pop"], "note(\"c4 e4 g4\").s(\"gm_alto_sax\")"⟩),
  ("gm_tenor_sax", ⟨"Tenor saxophone. Rich, powerful, soulful. Jazz, rock, R&B solos.", "woodwind", ["saxophone", "tenor", "rich", "powerful", "soulful", "jazz", "rock"], "note(\"c4 e4 g4\").s(\"gm_tenor_sax\")"⟩),
  ("gm_baritone_sax", ⟨"Baritone saxophone. Deep, honking, powerful. Jazz, funk, rock.", "woodwind", ["saxophone", "baritone", "deep", "honking", "funk", "jazz"], "note(\"c3 e3 g3\").s(\"gm_baritone_sax\")"⟩),
  ("gm_lead_1_square", ⟨"Square wave lead. Retro, chiptune, 8-bit. Video game melodies.", "synth_lead", ["synth", "lead", "square", "chiptune", "8-bit", "retro", "game"], "note(\"c5 e5 g5\").s(\"gm_lead_1_square\")"⟩),
  ("gm_lead_2_sawtooth", ⟨"Sawtooth wave lead. Bright, buzzy, classic synth. Trance, EDM.", "synth_lead", ["synth", "lead", "sawtooth", "bright", "buzzy", "trance", "edm"], "note(\"c5 e5 g5\").s(\"gm_lead_2_sawtooth\")"⟩),
  ("gm_lead_3_calliope", ⟨"Calliope lead. Circus organ, carnival. Quirky, whimsical.", "synth_lead", ["synth", "lead", "calliope", "circus", "carnival", "quirky"], "note(\"c5 e5 g5\").s(\"gm_lead_3_calliope\")"⟩),
  ("gm_lead_4_chiff", ⟨"Chiff lead. Breathy attack, pan flute-like. Airy, new age.", "synth_lead", ["synth", "lead", "chiff", "breathy", "airy", "new-age"], "note(\"c5 e5 g5\").s(\"gm_lead_4_chiff\")"⟩),
  ("gm_lead_5_charang", ⟨"Charang lead. Distorted, aggressive synth. Rock, industrial.", "synth_lead", ["synth", "lead", "charang", "distorted", "aggressive", "rock"], "note(\"c5 e5 g5\").s(\"gm_lead_5_charang\")"⟩),
  ("gm_lead_6_voice", ⟨"Voice lead synth. Vocal-like, choir synth. Ethereal, dreamy.", "synth_lead", ["synth", "lead", "voice", "vocal", "choir", "ethereal", "dreamy"], "note(\"c5 e5 g5\").s(\"gm_lead_6_voice\")"⟩),
  ("gm_lead_7_fifths", ⟨"Fifths lead. Power chord synth, parallel fifths. Heavy, powerful.", "synth_lead", ["synth", "lead", "fifths", "power-chord", "heavy", "powerful"], "note(\"c5 e5 g5\").s(\"gm_lead_7_fifths\")"⟩),
  ("gm_lead_8_bass_lead", ⟨"Bass and lead combo. Thick, full range synth. Monophonic bass-lead.", "synth_lead", ["synth", "lead", "bass", "thick", "full", "monophonic"], "note(\"c4 e4 g4\").s(\"gm_lead_8_bass_lead\")"⟩),
  ("gm_pad_1_new_age", ⟨"New age pad. Warm, evolving, meditation. Ambient, relaxation.", "synth_pad", ["synth", "pad", "new-age", "warm", "ambient", "meditation", "relaxation"], "note(\"<[c3,e3,g3] [f3,a3,c4]>\").s(\"gm_pad_1_new_age\")"⟩),
  ("gm_pad_2_warm", ⟨"Warm pad. Analog-style warmth, rich harmonics. Lush, enveloping.", "synth_pad", ["synth", "pad", "warm", "analog", "lush", "rich"], "note(\"<[c3,e3,g3] [f3,a3,c4]>\").s(\"gm_pad_2_warm\")"⟩),
  ("gm_pad_3_polysynth", ⟨"Polysynth pad. Classic 80s pad. Synthwave, retro, detuned.", "synth_pad", ["synth", "pad", "polysynth", "80s", "synthwave", "retro", "detuned"], "note(\"<[c3,e3,g3] [f3,a3,c4]>\").s(\"gm_pad_3_polysynth\")"⟩)
]

/-- Chunk 3 of the GM soundfont source table (entries 81-115 in insertion order), transcribed from build_catalog.py. -/
def gm_soundfonts_c3 : List (String × Entry4) := [
  ("gm_pad_4_choir", ⟨"Choir pad. Vocal ensemble synth. Angelic, ethereal, sacred.", "synth_pad", ["synth", "pad", "choir", "vocal", "angelic", "ethereal", "sacred"], "note(\"<[c3,e3,g3] [f3,a3,c4]>\").s(\"gm_pad_4_choir\")"⟩),
  ("gm_pad_5_bowed", ⟨"Bowed pad. String-like attack, evolving. Cinematic, tension.", "synth_pad", ["synth", "pad", "bowed", "string-like", "cinematic", "tension"], "note(\"<[c3,e3,g3] [f3,a3,c4]>\").s(\"gm_pad_5_bowed\")"⟩),
  ("gm_pad_6_metallic", ⟨"Metallic pad. Bell-like, shimmering. Industrial, cold, futuristic.", "synth_pad", ["synth", "pad", "metallic", "bell", "shimmering", "industrial", "cold"], "note(\"<[c3,e3,g3] [f3,a3,c4]>\").s(\"gm_pad_6_metallic\")"⟩),
  ("gm_pad_7_halo", ⟨"Halo pad. Bright, airy, heavenly. Ambient, uplifting.", "synth_pad", ["synth", "pad", "halo", "bright", "airy", "heavenly", "ambient"], "note(\"<[c3,e3,g3] [f3,a3,c4]>\").s(\"gm_pad_7_halo\")"⟩),
  ("gm_pad_8_sweep", ⟨"Sweep pad. Filter sweep, evolving texture. Builds, transitions.", "synth_pad", ["synth", "pad", "sweep", "filter", "evolving", "builds", "transitions"], "note(\"<[c3,e3,g3] [f3,a3,c4]>\").s(\"gm_pad_8_sweep\")"⟩),
  ("gm_fx_1_rain", ⟨"Rain effect. Ambient rainfall texture. Weather, nature, atmosphere.", "synth_fx", ["synth", "fx", "rain", "ambient", "weather", "nature", "atmosphere"], "note(\"c4\").s(\"gm_fx_1_rain\")"⟩),
  ("gm_fx_2_soundtrack", ⟨"Soundtrack effect. Cinematic texture, sci-fi. Film score, tension.", "synth_fx", ["synth", "fx", "soundtrack", "cinematic", "sci-fi", "tension"], "note(\"c4\").s(\"gm_fx_2_soundtrack\")"⟩),
  ("gm_fx_3_crystal", ⟨"Crystal effect. Sparkling, magical. Fantasy, fairy tale.", "synth_fx", ["synth", "fx", "crystal", "sparkling", "magical", "fantasy"], "note(\"c5\").s(\"gm_fx_3_crystal\")"⟩),
  ("gm_fx_4_atmosphere", ⟨"Atmosphere effect. Ambient drone, space. Sci-fi, suspense.", "synth_fx", ["synth", "fx", "atmosphere", "ambient", "drone", "space", "sci-fi"], "note(\"c3\").s(\"gm_fx_4_atmosphere\")"⟩),
  ("gm_fx_5_brightness", ⟨"Brightness effect. Rising shimmer, uplifting. Transitions, builds.", "synth_fx", ["synth", "fx", "brightness", "shimmer", "uplifting", "transitions"], "note(\"c4\").s(\"gm_fx_5_brightness\")"⟩),
  ("gm_fx_6_goblins", ⟨"Goblins effect. Dark, creepy texture. Horror, fantasy, tension.", "synth_fx", ["synth", "fx", "goblins", "dark", "creepy", "horror", "fantasy"], "note(\"c3\").s(\"gm_fx_6_goblins\")"⟩),
  ("gm_fx_7_echoes", ⟨"Echoes effect. Delayed, spacious texture. Ambient, dub.", "synth_fx", ["synth", "fx", "echoes", "delay", "spacious", "ambient", "dub"], "note(\"c4\").s(\"gm_fx_7_echoes\")"⟩),
  ("gm_fx_8_scifi", ⟨"Sci-fi effect. Futuristic, electronic texture. Space, technology.", "synth_fx", ["synth", "fx", "scifi", "futuristic", "electronic", "space", "technology"], "note(\"c4\").s(\"gm_fx_8_scifi\")"⟩),
  ("gm_sitar", ⟨"Sitar. Indian classical string, drone strings. Raga, world, psychedelic.", "ethnic", ["sitar", "indian", "world", "string", "raga", "psychedelic", "drone"], "note(\"c4 e4 g4\").s(\"gm_sitar\")"⟩),
  ("gm_banjo", ⟨"Banjo. Twangy, bright plucked. Bluegrass, country, folk, Americana.", "ethnic", ["banjo", "bluegrass", "country", "folk", "americana", "twangy", "plucked"], "note(\"c4 e4 g4\").s(\"gm_banjo\")"⟩),
  ("gm_shamisen", ⟨"Shamisen. Japanese three-string lute. Traditional, folk, kabuki.", "ethnic", ["shamisen", "japanese", "world", "traditional", "folk", "kabuki"], "note(\"c4 e4 g4\").s(\"gm_shamisen\")"⟩),
  ("gm_koto", ⟨"Koto. Japanese zither, 13 strings. Elegant, zen, traditional.", "ethnic", ["koto", "japanese", "world", "zither", "elegant", "zen", "traditional"], "note(\"c4 e4 g4\").s(\"gm_koto\")"⟩),
  ("gm_kalimba", ⟨"Kalimba, thumb piano. African mbira. Mellow, plucky, world.", "ethnic", ["kalimba", "mbira", "african", "world", "thumb-piano", "mellow", "plucky"], "note(\"c5 e5 g5\").s(\"gm_kalimba\")"⟩),
  ("gm_bagpipe", ⟨"Bagpipes. Scottish/Irish drone instrument. Celtic, ceremonial, powerful.", "ethnic", ["bagpipe", "scottish", "irish", "celtic", "drone", "ceremonial", "powerful"], "note(\"c4 e4 g4\").s(\"gm_bagpipe\")"⟩),
  ("gm_fiddle", ⟨"Fiddle. Folk violin style. Celtic, bluegrass, country, energetic.", "ethnic", ["fiddle", "violin", "folk", "celtic", "bluegrass", "country", "energetic"], "note(\"c5 e5 g5\").s(\"gm_fiddle\")"⟩),
  ("gm_shanai", ⟨"Shanai, shehnai. Indian double-reed. Weddings, celebrations, snake charmer.", "ethnic", ["shanai", "shehnai", "indian", "world", "double-reed", "celebration"], "note(\"c5 e5 g5\").s(\"gm_shanai\")"⟩),
  ("gm_timpani", ⟨"Timpani, kettle drums. Orchestral bass drums. Dramatic, thunderous.", "percussion", ["timpani", "kettle-drums", "orchestral", "dramatic", "thunderous", "classical"], "note(\"c2 g2\").s(\"gm_timpani\")"⟩),
  ("gm_orchestra_hit", ⟨"Orchestra hit. Full orchestra stab. 80s, dramatic, impact.", "percussion", ["orchestra-hit", "stab", "80s", "dramatic", "impact", "orchestral"], "note(\"c4\").s(\"gm_orchestra_hit\")"⟩),
  ("gm_melodic_tom", ⟨"Melodic tom drums. Tuned toms, tribal. Tom fills, ethnic.", "percussion", ["tom", "melodic", "tuned", "tribal", "ethnic", "fills"], "note(\"c3 e3 g3\").s(\"gm_melodic_tom\")"⟩),
  ("gm_synth_drum", ⟨"Synth drum. Electronic drum hit. 80s, electronic, processed.", "percussion", ["drum", "synth", "electronic", "80s", "processed"], "note(\"c3\").s(\"gm_synth_drum\")"⟩),
  ("gm_taiko_drum", ⟨"Taiko drum. Japanese big drum. Powerful, ceremonial, epic.", "percussion", ["taiko", "japanese", "drum", "powerful", "ceremonial", "epic"], "note(\"c2\").s(\"gm_taiko_drum\")"⟩),
  ("gm_woodblock", ⟨"Woodblock. Hollow wooden percussion. Latin, orchestral, click.", "percussion", ["woodblock", "wooden", "percussion", "latin", "orchestral", "click"], "s(\"gm_woodblock\")"⟩),
  ("gm_steel_drums", ⟨"Steel drums, steel pans. Caribbean, tropical. Bright, melodic, calypso.", "percussion", ["steel-drums", "caribbean", "tropical", "calypso", "bright", "melodic"], "note(\"c5 e5 g5\").s(\"gm_steel_drums\")"⟩),
  ("gm_applause", ⟨"Applause sound effect. Audience clapping. Endings, live feel.", "sound_fx", ["applause", "clapping", "audience", "sfx", "live"], "s(\"gm_applause\")"⟩),
  ("gm_gunshot", ⟨"Gunshot sound effect. Explosive impact. Action, cinematic.", "sound_fx", ["gunshot", "explosion", "impact", "sfx", "action"], "s(\"gm_gunshot\")"⟩),
  ("gm_helicopter", ⟨"Helicopter sound effect. Rotor blades, aviation. Cinematic, action.", "sound_fx", ["helicopter", "aviation", "sfx", "cinematic", "action"], "s(\"gm_helicopter\")"⟩),
  ("gm_seashore", ⟨"Seashore sound effect. Ocean waves, beach ambience. Relaxation, nature.", "sound_fx", ["seashore", "ocean", "waves", "beach", "sfx", "relaxation", "nature"], "s(\"gm_seashore\")"⟩),
  ("gm_bird_tweet", ⟨"Bird tweet sound effect. Birdsong, nature. Morning, forest, peaceful.", "sound_fx", ["bird", "tweet", "nature", "sfx", "morning", "forest", "peaceful"], "s(\"gm_bird_tweet\")"⟩),
  ("gm_telephone_ring", ⟨"Telephone ring sound effect. Classic phone ring. Retro, communication.", "sound_fx", ["telephone", "ring", "phone", "sfx", "retro", "communication"], "s(\"gm_telephone_ring\")"⟩),
  ("gm_breath_noise", ⟨"Breath noise effect. Wind, breathing sound. Ambient, human, intimate.", "sound_fx", ["breath", "wind", "noise", "sfx", "ambient", "human"], "s(\"gm_breath_noise\")"⟩)
]

/-- The GM soundfont source table, transcribed from build_catalog.py; keys are the Python dict keys in insertion order (concatenation of the chunks above). -/
def gm_soundfonts : List (String × Entry4) :=
  gm_soundfonts_c1 ++ gm_soundfonts_c2 ++ gm_soundfonts_c3

/-- Chunk 1 of the Dirt-Samples source table (entries 1-40 in insertion order), transcribed from build_catalog.py. -/
def dirt_samples_c1 : List (String × Entry3) := [
  ("808", ⟨"Roland TR-808 drum machine. Classic hip-hop, electronic. Full kit - kicks, snares, hats, claps.", "drum_machine", ["808", "roland", "drum-machine", "hip-hop", "electronic", "classic"]⟩),
  ("808bd", ⟨"TR-808 bass drum, kick. Deep, boomy, iconic hip-hop kick.", "drums", ["808", "kick", "bass-drum", "hip-hop", "deep", "boomy"]⟩),
  ("808cy", ⟨"TR-808 cymbal. Metallic, splashy crash.", "drums", ["808", "cymbal", "crash", "metallic"]⟩),
  ("808hc", ⟨"TR-808 high conga. Latin percussion, electronic.", "drums", ["808", "conga", "high", "latin", "percussion"]⟩),
  ("808ht", ⟨"TR-808 high tom. Pitched tom sound.", "drums", ["808", "tom", "high", "pitched"]⟩),
  ("808lc", ⟨"TR-808 low conga. Deep latin percussion.", "drums", ["808", "conga", "low", "latin", "deep"]⟩),
  ("808lt", ⟨"TR-808 low tom. Deep pitched tom.", "drums", ["808", "tom", "low", "deep"]⟩),
  ("808mc", ⟨"TR-808 mid conga. Medium latin percussion.", "drums", ["808", "conga", "mid", "latin"]⟩),
  ("808mt", ⟨"TR-808 mid tom. Medium pitched tom.", "drums", ["808", "tom", "mid"]⟩),
  ("808oh", ⟨"TR-808 open hi-hat. Sizzling, sustained hat.", "drums", ["808", "hi-hat", "open", "sizzle"]⟩),
  ("808sd", ⟨"TR-808 snare drum. Crisp, snappy electronic snare.", "drums", ["808", "snare", "crisp", "electronic"]⟩),
  ("909", ⟨"Roland TR-909 drum machine. House, techno essential. Punchy kicks, crisp hats.", "drum_machine", ["909", "roland", "drum-machine", "house", "techno", "punchy"]⟩),
  ("ab", ⟨"Abstract sounds. Experimental, textural, unusual.", "experimental", ["abstract", "experimental", "texture", "unusual"]⟩),
  ("ade", ⟨"Ade sample pack. Electronic textures.", "electronic", ["ade", "electronic", "texture"]⟩),
  ("ades2", ⟨"Ade sample pack 2. More electronic sounds.", "electronic", ["ade", "electronic", "variant"]⟩),
  ("ades3", ⟨"Ade sample pack 3. Electronic continuation.", "electronic", ["ade", "electronic", "variant"]⟩),
  ("ades4", ⟨"Ade sample pack 4. Electronic sounds.", "electronic", ["ade", "electronic", "variant"]⟩),
  ("alex", ⟨"Alex sample collection. Various sounds.", "misc", ["alex", "collection", "various"]⟩),
  ("alphabet", ⟨"Alphabet spoken letters. A to Z voice samples.", "vocal", ["alphabet", "letters", "voice", "speech", "educational"]⟩),
  ("amencutup", ⟨"Amen break chopped. Classic breakbeat sliced. Jungle, drum and bass.", "breaks", ["amen", "breakbeat", "chopped", "jungle", "dnb", "classic"]⟩),
  ("armora", ⟨"Armora sounds. Metallic, armored textures.", "experimental", ["armora", "metallic", "texture"]⟩),
  ("arp", ⟨"Arpeggio sounds. Sequenced melodic patterns.", "melodic", ["arpeggio", "sequence", "melodic", "pattern"]⟩),
  ("arpy", ⟨"Arpy synth. Short plucky synth for arpeggios. Electronic, chiptune-ish.", "melodic", ["arpeggio", "synth", "plucky", "electronic"]⟩),
  ("auto", ⟨"Auto sounds. Automotive, mechanical.", "sfx", ["auto", "car", "mechanical", "engine"]⟩),
  ("baa", ⟨"Baa sheep sound. Animal bleat.", "sfx", ["sheep", "animal", "bleat", "farm"]⟩),
  ("baa2", ⟨"Baa sheep variant. Different sheep sounds.", "sfx", ["sheep", "animal", "bleat", "variant"]⟩),
  ("bass", ⟨"Bass samples. General bass sounds. Low frequency foundation.", "bass", ["bass", "low", "foundation"]⟩),
  ("bass0", ⟨"Bass variant 0. Alternative bass character.", "bass", ["bass", "variant", "low"]⟩),
  ("bass1", ⟨"Bass variant 1. Different bass timbre.", "bass", ["bass", "variant", "low"]⟩),
  ("bass2", ⟨"Bass variant 2. Another bass flavor.", "bass", ["bass", "variant", "low"]⟩),
  ("bass3", ⟨"Bass variant 3. Extended bass options.", "bass", ["bass", "variant", "low"]⟩),
  ("bassdm", ⟨"Bass drum samples. Kick drums, low percussion.", "drums", ["bass", "drum", "kick", "low"]⟩),
  ("bassfoo", ⟨"Bass foo experimental. Unusual bass sounds.", "bass", ["bass", "experimental", "unusual"]⟩),
  ("battles", ⟨"Battle sounds. Combat, action, warfare.", "sfx", ["battle", "combat", "action", "warfare"]⟩),
  ("bd", ⟨"Bass drum, kick drum. Electronic and acoustic kicks. Foundation of rhythm.", "drums", ["kick", "bass-drum", "drums", "rhythm", "foundation"]⟩),
  ("bend", ⟨"Bend sounds. Pitch bending, gliding tones.", "melodic", ["bend", "pitch", "glide", "tone"]⟩),
  ("bev", ⟨"Bev sample collection. Various sounds.", "misc", ["bev", "collection", "various"]⟩),
  ("bin", ⟨"Binary sounds. Digital, computer-like.", "electronic", ["binary", "digital", "computer", "data"]⟩),
  ("birds", ⟨"Bird sounds. Birdsong, nature, chirping.", "sfx", ["birds", "nature", "chirp", "wildlife"]⟩),
  ("birds3", ⟨"Birds variant 3. More bird sounds.", "sfx", ["birds", "nature", "chirp", "variant"]⟩)
]

/-- Chunk 2 of the Dirt-Samples source table (entries 41-80 in insertion order), transcribed from build_catalog.py. -/
def dirt_samples_c2 : List (String × Entry3) := [
  ("bleep", ⟨"Bleep sounds. Electronic beeps, UI sounds.", "electronic", ["bleep", "beep", "electronic", "ui"]⟩),
  ("blip", ⟨"Blip sounds. Short electronic beep. Glitch, UI, accent.", "electronic", ["blip", "beep", "electronic", "glitch", "ui"]⟩),
  ("blue", ⟨"Blue sample collection. Various sounds.", "misc", ["blue", "collection", "various"]⟩),
  ("bottle", ⟨"Bottle sounds. Glass, blown bottle, percussion.", "percussion", ["bottle", "glass", "blown", "percussion"]⟩),
  ("breaks125", ⟨"Breakbeat loops at 125 BPM. House tempo breaks.", "breaks", ["breakbeat", "125bpm", "house", "loop"]⟩),
  ("breaks152", ⟨"Breakbeat loops at 152 BPM. DnB tempo breaks.", "breaks", ["breakbeat", "152bpm", "dnb", "loop"]⟩),
  ("breaks157", ⟨"Breakbeat loops at 157 BPM. Fast breaks.", "breaks", ["breakbeat", "157bpm", "fast", "loop"]⟩),
  ("breaks165", ⟨"Breakbeat loops at 165 BPM. Jungle tempo.", "breaks", ["breakbeat", "165bpm", "jungle", "loop"]⟩),
  ("breath", ⟨"Breath sounds. Human breathing, wind.", "sfx", ["breath", "human", "wind", "air"]⟩),
  ("bubble", ⟨"Bubble sounds. Water bubbles, underwater.", "sfx", ["bubble", "water", "underwater", "liquid"]⟩),
  ("can", ⟨"Can sounds. Metal can, percussion.", "percussion", ["can", "metal", "percussion", "found-sound"]⟩),
  ("casio", ⟨"Casio keyboard. Lo-fi keys, toy keyboard character. Nostalgic, lo-fi.", "melodic", ["casio", "keyboard", "lo-fi", "toy", "nostalgic"]⟩),
  ("cb", ⟨"Cowbell. Metallic percussion. Funk, latin, electronic classic.", "drums", ["cowbell", "percussion", "metallic", "funk", "latin"]⟩),
  ("cc", ⟨"CC samples. Various control sounds.", "misc", ["cc", "control", "various"]⟩),
  ("chin", ⟨"China cymbal or chin sounds. Trashy cymbal.", "drums", ["china", "cymbal", "trashy", "crash"]⟩),
  ("circus", ⟨"Circus sounds. Carnival, whimsical, fun.", "sfx", ["circus", "carnival", "whimsical", "fun"]⟩),
  ("clak", ⟨"Clak percussion. Click, clack sounds.", "percussion", ["clak", "click", "clack", "percussion"]⟩),
  ("click", ⟨"Click sounds. Digital clicks, percussion.", "percussion", ["click", "digital", "percussion", "ui"]⟩),
  ("clubkick", ⟨"Club kick drums. Big room, EDM kicks.", "drums", ["kick", "club", "edm", "big-room"]⟩),
  ("co", ⟨"Co sample collection. Various sounds.", "misc", ["co", "collection", "various"]⟩),
  ("coins", ⟨"Coin sounds. Money, jingling, arcade.", "sfx", ["coins", "money", "jingle", "arcade"]⟩),
  ("control", ⟨"Control sounds. Buttons, switches, UI.", "sfx", ["control", "button", "switch", "ui"]⟩),
  ("cosmicg", ⟨"Cosmic G sounds. Space, sci-fi textures.", "electronic", ["cosmic", "space", "sci-fi", "texture"]⟩),
  ("cp", ⟨"Clap, hand clap. Snappy, layered clap sound. Electronic music staple.", "drums", ["clap", "handclap", "drums", "snappy"]⟩),
  ("cr", ⟨"Crash cymbal. Explosive cymbal hit. Accents, transitions.", "drums", ["crash", "cymbal", "drums", "accent", "transition"]⟩),
  ("crow", ⟨"Crow sounds. Bird caw, nature.", "sfx", ["crow", "bird", "caw", "nature"]⟩),
  ("d", ⟨"D sample collection. Various drum sounds.", "drums", ["d", "drums", "collection"]⟩),
  ("db", ⟨"DB samples. Database or deep bass.", "bass", ["db", "deep", "bass"]⟩),
  ("diphone", ⟨"Diphone speech synthesis. Robotic voice.", "vocal", ["diphone", "speech", "synthesis", "robotic"]⟩),
  ("diphone2", ⟨"Diphone variant 2. More speech synthesis.", "vocal", ["diphone", "speech", "synthesis", "variant"]⟩),
  ("dist", ⟨"Distorted sounds. Heavy distortion, aggressive.", "electronic", ["distortion", "heavy", "aggressive", "noise"]⟩),
  ("dork2", ⟨"Dork sounds 2. Quirky, unusual.", "experimental", ["dork", "quirky", "unusual", "fun"]⟩),
  ("dorkbot", ⟨"Dorkbot sounds. Electronic, robotic.", "electronic", ["dorkbot", "electronic", "robotic"]⟩),
  ("dr", ⟨"DR drum samples. Various drums.", "drums", ["dr", "drums", "various"]⟩),
  ("dr2", ⟨"DR drums variant 2.", "drums", ["dr", "drums", "variant"]⟩),
  ("dr55", ⟨"DR-55 drum machine. Boss Doctor Rhythm.", "drum_machine", ["dr55", "boss", "drum-machine", "vintage"]⟩),
  ("dr_few", ⟨"DR few selected drums.", "drums", ["dr", "drums", "selected"]⟩),
  ("drum", ⟨"General drum samples. Various drum hits.", "drums", ["drum", "hits", "various"]⟩),
  ("drumtraks", ⟨"Sequential DrumTraks samples. Vintage drum machine.", "drum_machine", ["drumtraks", "sequential", "drum-machine", "vintage"]⟩),
  ("e", ⟨"E sample collection. Electronic sounds.", "electronic", ["e", "electronic", "collection"]⟩)
]

/-- Chunk 3 of the Dirt-Samples source table (entries 81-120 in insertion order), transcribed from build_catalog.py. -/
def dirt_samples_c3 : List (String × Entry3) := [
  ("east", ⟨"East sounds. Eastern, Asian influenced.", "world", ["east", "asian", "eastern", "world"]⟩),
  ("electro1", ⟨"Electro sounds 1. Electronic, 80s electro.", "electronic", ["electro", "80s", "electronic", "breakdance"]⟩),
  ("em2", ⟨"EM2 samples. Electronic music.", "electronic", ["em2", "electronic", "music"]⟩),
  ("erk", ⟨"Erk sounds. Unusual, experimental.", "experimental", ["erk", "unusual", "experimental"]⟩),
  ("f", ⟨"F sample collection. Various sounds.", "misc", ["f", "collection", "various"]⟩),
  ("feel", ⟨"Feel samples. Textural, emotional.", "experimental", ["feel", "texture", "emotional"]⟩),
  ("feelfx", ⟨"Feel effects. Atmospheric, textural FX.", "sfx", ["feel", "fx", "atmospheric", "texture"]⟩),
  ("fest", ⟨"Festival sounds. Crowd, celebration.", "sfx", ["festival", "crowd", "celebration"]⟩),
  ("fire", ⟨"Fire sounds. Flames, crackling.", "sfx", ["fire", "flames", "crackling", "nature"]⟩),
  ("flick", ⟨"Flick sounds. Quick, snappy.", "percussion", ["flick", "quick", "snappy"]⟩),
  ("fm", ⟨"FM synthesis sounds. Digital, bell-like, metallic.", "melodic", ["fm", "synthesis", "digital", "bell", "metallic"]⟩),
  ("foo", ⟨"Foo samples. Various experimental sounds.", "experimental", ["foo", "experimental", "various"]⟩),
  ("future", ⟨"Future sounds. Futuristic, sci-fi.", "electronic", ["future", "futuristic", "sci-fi"]⟩),
  ("gab", ⟨"Gabber sounds. Hardcore, distorted.", "electronic", ["gabber", "hardcore", "distorted", "fast"]⟩),
  ("gabba", ⟨"Gabba kicks. Hardcore techno kicks.", "drums", ["gabba", "hardcore", "kick", "distorted"]⟩),
  ("gabbaloud", ⟨"Gabba loud. Louder hardcore kicks.", "drums", ["gabba", "hardcore", "loud", "kick"]⟩),
  ("gabbalouder", ⟨"Gabba even louder. Maximum hardcore.", "drums", ["gabba", "hardcore", "loudest", "extreme"]⟩),
  ("glasstap", ⟨"Glass tap sounds. Delicate, percussive.", "percussion", ["glass", "tap", "delicate", "percussion"]⟩),
  ("glitch", ⟨"Glitch sounds. Digital artifacts, errors. Experimental, IDM.", "electronic", ["glitch", "digital", "error", "idm", "experimental"]⟩),
  ("glitch2", ⟨"Glitch variant 2. More digital artifacts.", "electronic", ["glitch", "digital", "variant"]⟩),
  ("gretsch", ⟨"Gretsch drum kit. Acoustic drum samples.", "drums", ["gretsch", "acoustic", "drum-kit"]⟩),
  ("gtr", ⟨"Electric guitar samples. Short stabs, limited. Guitar character.", "guitar", ["guitar", "electric", "stabs"]⟩),
  ("h", ⟨"H sample collection. Various sounds.", "misc", ["h", "collection", "various"]⟩),
  ("hand", ⟨"Hand sounds. Claps, snaps, body percussion.", "percussion", ["hand", "clap", "snap", "body-percussion"]⟩),
  ("hardcore", ⟨"Hardcore sounds. Intense, aggressive.", "electronic", ["hardcore", "intense", "aggressive"]⟩),
  ("hardkick", ⟨"Hard kick drums. Punchy, powerful kicks.", "drums", ["kick", "hard", "punchy", "powerful"]⟩),
  ("haw", ⟨"Haw sounds. Various samples.", "misc", ["haw", "various"]⟩),
  ("hc", ⟨"Hardcore sounds or high conga.", "drums", ["hc", "hardcore", "conga"]⟩),
  ("hh", ⟨"Hi-hat, closed hi-hat. Tight, crisp high-frequency rhythm.", "drums", ["hi-hat", "hihat", "drums", "crisp"]⟩),
  ("hh27", ⟨"Hi-hat collection 27. Multiple hi-hat sounds.", "drums", ["hi-hat", "collection", "variety"]⟩),
  ("hit", ⟨"Hit sounds. Impact, stabs.", "sfx", ["hit", "impact", "stab"]⟩),
  ("hmm", ⟨"Hmm vocal sounds. Thinking, contemplation.", "vocal", ["hmm", "vocal", "thinking"]⟩),
  ("ho", ⟨"Ho sounds. Vocal exclamations.", "vocal", ["ho", "vocal", "exclamation"]⟩),
  ("hoover", ⟨"Hoover bass. Classic rave sound, mentasm.", "bass", ["hoover", "rave", "mentasm", "bass"]⟩),
  ("house", ⟨"House music samples. 4/4 beats, grooves.", "electronic", ["house", "4/4", "groove", "electronic"]⟩),
  ("ht", ⟨"High tom drum. High pitched tom. Fills, rolls.", "drums", ["tom", "high", "fills"]⟩),
  ("if", ⟨"IF samples. Conditional, experimental.", "experimental", ["if", "experimental"]⟩),
  ("ifdrums", ⟨"IF drums. Experimental drum sounds.", "drums", ["if", "drums", "experimental"]⟩),
  ("incoming", ⟨"Incoming sounds. Approaching, building.", "sfx", ["incoming", "approach", "build"]⟩),
  ("industrial", ⟨"Industrial sounds. Factory, mechanical, harsh.", "electronic", ["industrial", "factory", "mechanical", "harsh"]⟩)
]

/-- Chunk 4 of the Dirt-Samples source table (entries 121-160 in insertion order), transcribed from build_catalog.py. -/
def dirt_samples_c4 : List (String × Entry3) := [
  ("insect", ⟨"Insect sounds. Bugs, buzzing, nature.", "sfx", ["insect", "bugs", "buzzing", "nature"]⟩),
  ("invaders", ⟨"Space invaders sounds. Retro arcade, 8-bit.", "electronic", ["invaders", "arcade", "8-bit", "retro", "game"]⟩),
  ("jazz", ⟨"Jazz samples. Jazz drum kit, brushes.", "drums", ["jazz", "brushes", "acoustic", "swing"]⟩),
  ("jungbass", ⟨"Jungle bass. Sub-heavy bass for drum and bass, jungle. Deep, rolling.", "bass", ["jungle", "bass", "dnb", "sub", "deep"]⟩),
  ("jungle", ⟨"Jungle samples. Breakbeat, DnB drums.", "breaks", ["jungle", "breakbeat", "dnb", "drums"]⟩),
  ("juno", ⟨"Juno synth. Roland Juno character. Warm, analog, classic.", "melodic", ["juno", "roland", "synth", "analog", "warm"]⟩),
  ("jvbass", ⟨"JV bass. Roland JV synth bass. Punchy, electronic.", "bass", ["jv", "roland", "bass", "synth", "punchy"]⟩),
  ("kicklinn", ⟨"Linn kick drums. LinnDrum kicks.", "drums", ["linn", "kick", "drum-machine", "80s"]⟩),
  ("koy", ⟨"Koy samples. Various sounds.", "misc", ["koy", "various"]⟩),
  ("kurt", ⟨"Kurt samples. Various sounds.", "misc", ["kurt", "various"]⟩),
  ("latibro", ⟨"Latin brother samples. Latin percussion.", "percussion", ["latin", "percussion", "brother"]⟩),
  ("led", ⟨"LED sounds. Electronic, digital.", "electronic", ["led", "electronic", "digital"]⟩),
  ("less", ⟨"Less samples. Minimal sounds.", "minimal", ["less", "minimal"]⟩),
  ("lighter", ⟨"Lighter sounds. Click, flame.", "sfx", ["lighter", "click", "flame"]⟩),
  ("linnhats", ⟨"LinnDrum hi-hats. Classic 80s hats.", "drums", ["linn", "hi-hat", "80s", "drum-machine"]⟩),
  ("lt", ⟨"Low tom drum. Deep tom hit. Fills, tribal, floor tom.", "drums", ["tom", "low", "deep", "tribal"]⟩),
  ("made", ⟨"Made samples. Various processed sounds.", "misc", ["made", "processed", "various"]⟩),
  ("made2", ⟨"Made samples variant 2.", "misc", ["made", "variant"]⟩),
  ("mash", ⟨"Mash samples. Mashup, mixed sounds.", "electronic", ["mash", "mashup", "mixed"]⟩),
  ("mash2", ⟨"Mash samples variant 2.", "electronic", ["mash", "variant"]⟩),
  ("metal", ⟨"Metal sounds. Heavy, metallic, industrial.", "electronic", ["metal", "heavy", "metallic", "industrial"]⟩),
  ("miniyeah", ⟨"Mini yeah vocal. Short vocal sample.", "vocal", ["yeah", "vocal", "short"]⟩),
  ("monsterb", ⟨"Monster bass. Heavy, aggressive bass.", "bass", ["monster", "bass", "heavy", "aggressive"]⟩),
  ("moog", ⟨"Moog synth. Moog synthesizer sounds. Fat, analog, bass-capable.", "melodic", ["moog", "synth", "analog", "fat"]⟩),
  ("mouth", ⟨"Mouth sounds. Human mouth percussion. Beatbox-like.", "vocal", ["mouth", "beatbox", "percussion", "human"]⟩),
  ("mp3", ⟨"MP3 artifacts. Compressed audio sounds.", "electronic", ["mp3", "compressed", "artifact", "digital"]⟩),
  ("msg", ⟨"Message sounds. Communication, notification.", "sfx", ["message", "notification", "communication"]⟩),
  ("mt", ⟨"Mid tom drum. Medium pitched tom. Fills.", "drums", ["tom", "mid", "fills"]⟩),
  ("mute", ⟨"Muted sounds. Dampened, quiet.", "misc", ["mute", "dampened", "quiet"]⟩),
  ("newnotes", ⟨"New notes. Fresh melodic content.", "melodic", ["notes", "melodic", "new"]⟩),
  ("noise", ⟨"Noise samples. White noise, static. Texture, fills, risers.", "electronic", ["noise", "white-noise", "static", "texture"]⟩),
  ("noise2", ⟨"Noise variant 2. More noise textures.", "electronic", ["noise", "variant", "texture"]⟩),
  ("notes", ⟨"Notes samples. Melodic sounds.", "melodic", ["notes", "melodic"]⟩),
  ("num", ⟨"Number sounds. Numeric, counting audio.", "vocal", ["num", "number", "count", "digits"]⟩),
  ("numbers", ⟨"Number spoken samples. Count, digits.", "vocal", ["numbers", "count", "digits", "speech"]⟩),
  ("oc", ⟨"OC samples. Various sounds.", "misc", ["oc", "various"]⟩),
  ("odx", ⟨"ODX samples. Electronic sounds.", "electronic", ["odx", "electronic"]⟩),
  ("off", ⟨"Off sounds. Switch off, ending.", "sfx", ["off", "switch", "ending"]⟩),
  ("outdoor", ⟨"Outdoor sounds. Nature, ambient.", "sfx", ["outdoor", "nature", "ambient"]⟩),
  ("pad", ⟨"Synth pad. Sustained atmospheric sound. Chords, ambient, background.", "pads", ["pad", "synth", "ambient", "atmospheric"]⟩)
]

/-- Chunk 5 of the Dirt-Samples source table (entries 161-200 in insertion order), transcribed from build_catalog.py. -/
def dirt_samples_c5 : List (String × Entry3) := [
  ("padlong", ⟨"Long pad. Extended sustain pad. Drones, ambient, evolving.", "pads", ["pad", "long", "drone", "ambient"]⟩),
  ("pebbles", ⟨"Pebble sounds. Stones, gravel.", "sfx", ["pebbles", "stones", "gravel"]⟩),
  ("perc", ⟨"General percussion. Various percussion hits. Fills, accents.", "percussion", ["percussion", "hits", "fills"]⟩),
  ("peri", ⟨"Peri samples. Peripheral sounds.", "misc", ["peri", "peripheral"]⟩),
  ("pluck", ⟨"Plucked string. Generic pluck sound. Melodic, pizzicato-like.", "melodic", ["pluck", "string", "melodic"]⟩),
  ("popkick", ⟨"Pop kick drums. Modern pop kicks.", "drums", ["kick", "pop", "modern"]⟩),
  ("print", ⟨"Print sounds. Printer, mechanical.", "sfx", ["print", "printer", "mechanical"]⟩),
  ("proc", ⟨"Processed sounds. Manipulated audio.", "electronic", ["processed", "manipulated"]⟩),
  ("procshort", ⟨"Short processed sounds.", "electronic", ["processed", "short"]⟩),
  ("psr", ⟨"PSR keyboard sounds. Yamaha PSR.", "melodic", ["psr", "yamaha", "keyboard"]⟩),
  ("rave", ⟨"Rave sounds. 90s rave, stabs, hits.", "electronic", ["rave", "90s", "stabs", "rave-culture"]⟩),
  ("rave2", ⟨"Rave sounds variant 2. More rave content.", "electronic", ["rave", "variant"]⟩),
  ("ravemono", ⟨"Rave mono sounds. Monophonic rave.", "electronic", ["rave", "mono"]⟩),
  ("realclaps", ⟨"Real claps. Acoustic hand claps.", "drums", ["clap", "real", "acoustic"]⟩),
  ("reverbkick", ⟨"Reverb kick. Kicks with reverb tail.", "drums", ["kick", "reverb", "tail"]⟩),
  ("rm", ⟨"RM samples. Ring modulation sounds.", "electronic", ["rm", "ring-modulation"]⟩),
  ("rs", ⟨"Rimshot samples. Sharp rim hits.", "drums", ["rimshot", "rim", "sharp"]⟩),
  ("sax", ⟨"Saxophone samples. Jazz, R&B sax.", "melodic", ["saxophone", "sax", "jazz", "r&b"]⟩),
  ("sd", ⟨"Snare drum. Sharp, cracking backbeat. Essential drum sound.", "drums", ["snare", "drums", "backbeat"]⟩),
  ("seawolf", ⟨"Sea wolf sounds. Ocean, nautical.", "sfx", ["sea", "wolf", "ocean", "nautical"]⟩),
  ("sequential", ⟨"Sequential sounds. Ordered, sequenced.", "electronic", ["sequential", "ordered", "sequence"]⟩),
  ("sf", ⟨"SF sounds. Science fiction.", "sfx", ["sf", "sci-fi", "science-fiction"]⟩),
  ("sheffield", ⟨"Sheffield sounds. UK electronic.", "electronic", ["sheffield", "uk", "electronic"]⟩),
  ("short", ⟨"Short sounds. Brief, staccato.", "misc", ["short", "brief", "staccato"]⟩),
  ("sid", ⟨"SID chip sounds. C64, 8-bit.", "electronic", ["sid", "c64", "8-bit", "chiptune"]⟩),
  ("simplesine", ⟨"Simple sine wave. Pure, clean sine tone. Fundamental, sub bass, test tone.", "melodic", ["sine", "simple", "pure", "test-tone", "sub"]⟩),
  ("sine", ⟨"Sine wave samples. Pure tone.", "melodic", ["sine", "pure", "tone"]⟩),
  ("sitar", ⟨"Sitar samples. Indian string instrument. World, psychedelic.", "world", ["sitar", "indian", "world"]⟩),
  ("sn", ⟨"Snare drum alternate. Different snare character.", "drums", ["snare", "alternate"]⟩),
  ("space", ⟨"Space sounds. Cosmic, sci-fi.", "sfx", ["space", "cosmic", "sci-fi"]⟩),
  ("speakspell", ⟨"Speak and spell sounds. Retro toy.", "vocal", ["speak-spell", "retro", "toy"]⟩),
  ("speech", ⟨"Speech samples. Spoken word.", "vocal", ["speech", "spoken", "word"]⟩),
  ("speechless", ⟨"Speechless sounds. Non-verbal.", "vocal", ["speechless", "non-verbal"]⟩),
  ("speedupdown", ⟨"Speed up/down sounds. Tempo effects.", "sfx", ["speed", "tempo", "effect"]⟩),
  ("stab", ⟨"Synth stab. Short chord hit. House, disco, rhythmic chords.", "melodic", ["stab", "chord", "house"]⟩),
  ("stomp", ⟨"Stomp sounds. Foot stomps, body percussion.", "percussion", ["stomp", "foot", "body-percussion"]⟩),
  ("subroc3d", ⟨"Sub Roc 3D game sounds. Retro arcade.", "electronic", ["subroc", "arcade", "retro", "game"]⟩),
  ("sugar", ⟨"Sugar samples. Sweet, pleasant sounds.", "misc", ["sugar", "sweet", "pleasant"]⟩),
  ("sundance", ⟨"Sundance samples. Festival, outdoor.", "misc", ["sundance", "festival"]⟩),
  ("tabla", ⟨"Tabla drums. Indian classical percussion. Intricate, melodic drums.", "world", ["tabla", "indian", "percussion"]⟩)
]

/-- Chunk 6 of the Dirt-Samples source table (entries 201-219 in insertion order), transcribed from build_catalog.py. -/
def dirt_samples_c6 : List (String × Entry3) := [
  ("tabla2", ⟨"Tabla drums variant. More tabla sounds.", "world", ["tabla", "indian", "variant"]⟩),
  ("tablex", ⟨"Tabla extended. More tabla samples.", "world", ["tabla", "extended"]⟩),
  ("tacscan", ⟨"Tac Scan game sounds. Retro arcade.", "electronic", ["tacscan", "arcade", "retro"]⟩),
  ("tech", ⟨"Tech sounds. Technical, electronic.", "electronic", ["tech", "technical", "electronic"]⟩),
  ("techno", ⟨"Techno samples. Techno drums, sounds.", "electronic", ["techno", "drums", "electronic"]⟩),
  ("tink", ⟨"Tink sounds. Small metallic hits.", "percussion", ["tink", "metallic", "small"]⟩),
  ("tok", ⟨"Tok sounds. Click, tock.", "percussion", ["tok", "click", "tock"]⟩),
  ("toys", ⟨"Toy sounds. Playful, childlike.", "sfx", ["toys", "playful", "childlike"]⟩),
  ("trump", ⟨"Trump sounds. Trumpet-like.", "melodic", ["trump", "trumpet-like"]⟩),
  ("ul", ⟨"UL samples. Various sounds.", "misc", ["ul", "various"]⟩),
  ("ulgab", ⟨"UL gabber sounds. Hardcore.", "electronic", ["ul", "gabber", "hardcore"]⟩),
  ("uxay", ⟨"Uxay samples. Experimental.", "experimental", ["uxay", "experimental"]⟩),
  ("v", ⟨"V sample collection. Various sounds.", "misc", ["v", "collection"]⟩),
  ("voodoo", ⟨"Voodoo sounds. Dark, mystical.", "sfx", ["voodoo", "dark", "mystical"]⟩),
  ("wind", ⟨"Wind sounds. Atmospheric, nature.", "sfx", ["wind", "atmospheric", "nature"]⟩),
  ("wobble", ⟨"Wobble bass. Dubstep wobble sound.", "bass", ["wobble", "dubstep", "bass"]⟩),
  ("world", ⟨"World music samples. Global, ethnic.", "world", ["world", "global", "ethnic"]⟩),
  ("xmas", ⟨"Christmas sounds. Holiday, festive.", "sfx", ["christmas", "holiday", "festive"]⟩),
  ("yeah", ⟨"Yeah vocal samples. Exclamation, hype.", "vocal", ["yeah", "vocal", "exclamation", "hype"]⟩)
]

/-- The Dirt-Samples source table, transcribed from build_catalog.py; keys are the Python dict keys in insertion order (concatenation of the chunks above). -/
def dirt_samples : List (String × Entry3) :=
  dirt_samples_c1 ++ dirt_samples_c2 ++ dirt_samples_c3 ++ dirt_samples_c4 ++ dirt_samples_c5 ++ dirt_samples_c6

/-- The Built-in synth oscillator source table, transcribed from build_catalog.py; keys are the Python dict keys in insertion order. -/
def builtin_synths : List (String × Entry4) := [
  ("sine", ⟨"Sine wave oscillator. Pure, smooth, fundamental tone. Sub bass, pure tones, gentle.", "oscillator", ["sine", "oscillator", "pure", "smooth", "sub", "gentle", "fundamental"], "note(\"c4 e4 g4\").s(\"sine\")"⟩),
  ("saw", ⟨"Sawtooth wave oscillator. Bright, buzzy, rich harmonics. Classic synth lead, bass.", "oscillator", ["sawtooth", "saw", "oscillator", "bright", "buzzy", "harmonics", "lead"], "note(\"c4 e4 g4\").s(\"saw\")"⟩),
  ("sawtooth", ⟨"Sawtooth wave oscillator. Alias for saw. Bright, buzzy, rich in harmonics.", "oscillator", ["sawtooth", "saw", "oscillator", "bright", "buzzy", "harmonics"], "note(\"c4 e4 g4\").s(\"sawtooth\")"⟩),
  ("square", ⟨"Square wave oscillator. Hollow, woody, retro. Chiptune, 8-bit, video game.", "oscillator", ["square", "oscillator", "hollow", "woody", "retro", "chiptune", "8-bit"], "note(\"c4 e4 g4\").s(\"square\")"⟩),
  ("triangle", ⟨"Triangle wave oscillator. Soft, mellow, between sine and square. Gentle leads.", "oscillator", ["triangle", "oscillator", "soft", "mellow", "gentle"], "note(\"c4 e4 g4\").s(\"triangle\")"⟩),
  ("tri", ⟨"Triangle wave oscillator. Alias for triangle. Soft, mellow tone.", "oscillator", ["triangle", "tri", "oscillator", "soft", "mellow"], "note(\"c4 e4 g4\").s(\"tri\")"⟩)
]

/-- Chunk 1 of the Drum-machine source table (entries 1-40 in insertion order), transcribed from build_catalog.py. -/
def drum_machines_c1 : List (String × Entry2) := [
  ("AJKPercusyn", ⟨"AJK Percusyn drum synth. Analog percussion synthesizer. Unique electronic drums.", ["percusyn", "analog", "synth-drums", "electronic"]⟩),
  ("AkaiLinn", ⟨"Akai Linn MPC hybrid. Combines Akai sampling with Linn character. Hip-hop, R&B.", ["akai", "linn", "mpc", "hip-hop", "r&b", "sampling"]⟩),
  ("AkaiMPC60", ⟨"Akai MPC60 drum machine. Classic hip-hop sampler. Boom bap, golden era.", ["akai", "mpc60", "hip-hop", "boom-bap", "sampler", "classic"]⟩),
  ("AkaiXR10", ⟨"Akai XR10 drum machine. 90s Akai drums. Punchy electronic kit.", ["akai", "xr10", "90s", "electronic", "punchy"]⟩),
  ("AlesisHR16", ⟨"Alesis HR-16 drum machine. 80s/90s digital drums. Clean, punchy hits.", ["alesis", "hr16", "digital", "80s", "90s", "punchy"]⟩),
  ("AlesisSR16", ⟨"Alesis SR-16 drum machine. Popular 90s drums. Versatile, studio standard.", ["alesis", "sr16", "90s", "studio", "versatile"]⟩),
  ("BossDR110", ⟨"Boss DR-110 Dr. Rhythm. Compact analog drums. Lo-fi, characterful.", ["boss", "dr110", "analog", "lo-fi", "compact"]⟩),
  ("BossDR220", ⟨"Boss DR-220 Dr. Rhythm. 80s digital drums. Clean, versatile.", ["boss", "dr220", "digital", "80s", "clean"]⟩),
  ("BossDR55", ⟨"Boss DR-55 Dr. Rhythm. Early analog drum machine. Simple, punchy, classic.", ["boss", "dr55", "analog", "classic", "simple"]⟩),
  ("BossDR550", ⟨"Boss DR-550 Dr. Rhythm. 90s digital drums. Wide sound selection.", ["boss", "dr550", "digital", "90s", "versatile"]⟩),
  ("BossDR660", ⟨"Boss DR-660 Dr. Rhythm. Advanced 90s drums. High-quality samples.", ["boss", "dr660", "digital", "90s", "high-quality"]⟩),
  ("CasioRZ1", ⟨"Casio RZ-1 sampling drum machine. 80s sampler with built-in sounds. Quirky, nostalgic.", ["casio", "rz1", "sampler", "80s", "quirky"]⟩),
  ("CasioSK1", ⟨"Casio SK-1 sampling keyboard drums. Lo-fi, toy-like. Charming, nostalgic.", ["casio", "sk1", "lo-fi", "toy", "nostalgic"]⟩),
  ("CasioVL1", ⟨"Casio VL-1 VL-Tone drums. Iconic toy calculator synth drums. 8-bit, retro.", ["casio", "vl1", "toy", "8-bit", "retro", "calculator"]⟩),
  ("DoepferMS404", ⟨"Doepfer MS-404 modular drums. Analog modular synth drums. Experimental, raw.", ["doepfer", "ms404", "modular", "analog", "experimental"]⟩),
  ("EmuDrumulator", ⟨"E-mu Drumulator. Classic 80s digital drums. Electro, hip-hop essential.", ["emu", "drumulator", "80s", "electro", "hip-hop", "digital"]⟩),
  ("EmuModular", ⟨"E-mu Modular drum sounds. Modular synth drums. Experimental, unique.", ["emu", "modular", "synth", "experimental", "unique"]⟩),
  ("EmuSP12", ⟨"E-mu SP-12 sampler drums. Hip-hop classic. Boom bap, punchy, gritty.", ["emu", "sp12", "hip-hop", "boom-bap", "punchy", "sampler"]⟩),
  ("KorgDDM110", ⟨"Korg DDM-110 Super Drums. 80s digital drums. Punchy, characterful.", ["korg", "ddm110", "digital", "80s", "punchy"]⟩),
  ("KorgKPR77", ⟨"Korg KPR-77 drum machine. Analog drums, 80s character. Warm, punchy.", ["korg", "kpr77", "analog", "80s", "warm"]⟩),
  ("KorgKR55", ⟨"Korg KR-55 analog drums. Vintage rhythm machine. Warm, organic feel.", ["korg", "kr55", "analog", "vintage", "warm"]⟩),
  ("KorgKRZ", ⟨"Korg KRZ drum sounds. Korg rhythm sounds. Versatile, clean.", ["korg", "krz", "rhythm", "versatile"]⟩),
  ("KorgM1", ⟨"Korg M1 drum sounds. Iconic 80s workstation drums. Pop, dance, studio.", ["korg", "m1", "workstation", "80s", "pop", "dance"]⟩),
  ("KorgMinipops", ⟨"Korg Minipops rhythm machine. Vintage analog drums. Organ-combo style, retro.", ["korg", "minipops", "analog", "vintage", "retro"]⟩),
  ("KorgPoly800", ⟨"Korg Poly-800 drums. 80s polysynth drums. Digital, characterful.", ["korg", "poly800", "80s", "digital", "synth"]⟩),
  ("KorgT3", ⟨"Korg T3 workstation drums. 90s workstation sounds. Clean, professional.", ["korg", "t3", "workstation", "90s", "professional"]⟩),
  ("Linn9000", ⟨"Linn 9000 drum machine. Advanced Linn drums. Sampling, sequencing, 80s.", ["linn", "9000", "80s", "sampling", "sequencing"]⟩),
  ("LinnDrum", ⟨"LinnDrum classic. Iconic 80s digital drums. Pop, rock, hip-hop essential.", ["linndrum", "linn", "80s", "pop", "rock", "iconic"]⟩),
  ("LinnLM1", ⟨"Linn LM-1 first Linn drum machine. Revolutionary digital drums. Prince, 80s pop.", ["linn", "lm1", "80s", "pop", "revolutionary", "prince"]⟩),
  ("LinnLM2", ⟨"Linn LM-2 drum machine. Refined LM-1. 80s pop, rock drums.", ["linn", "lm2", "80s", "pop", "rock"]⟩),
  ("MFB512", ⟨"MFB-512 analog drum machine. German analog drums. Punchy, raw, electronic.", ["mfb", "512", "analog", "german", "electronic", "raw"]⟩),
  ("MPC1000", ⟨"Akai MPC1000 drums. 2000s MPC. Hip-hop, modern production.", ["akai", "mpc1000", "2000s", "hip-hop", "modern"]⟩),
  ("MoogConcertMateMG1", ⟨"Moog Concertmate MG-1 drums. Moog analog synth drums. Warm, characterful.", ["moog", "concertmate", "mg1", "analog", "warm"]⟩),
  ("OberheimDMX", ⟨"Oberheim DMX drum machine. 80s classic. Electro, hip-hop, new wave.", ["oberheim", "dmx", "80s", "electro", "hip-hop", "new-wave"]⟩),
  ("RhodesPolaris", ⟨"Rhodes Polaris drums. Rhodes synth drum sounds. Warm, analog character.", ["rhodes", "polaris", "synth", "analog", "warm"]⟩),
  ("RhythmAce", ⟨"Ace Tone Rhythm Ace. Vintage organ rhythm box. 60s/70s, retro, warm.", ["ace-tone", "rhythm-ace", "vintage", "60s", "70s", "organ"]⟩),
  ("RolandCompurhythm1000", ⟨"Roland CR-1000 Compurhythm. Advanced preset drums. Clean, versatile.", ["roland", "cr1000", "compurhythm", "preset", "clean"]⟩),
  ("RolandCompurhythm78", ⟨"Roland CR-78 Compurhythm. First programmable drum machine. Vintage, iconic.", ["roland", "cr78", "compurhythm", "vintage", "iconic", "programmable"]⟩),
  ("RolandCompurhythm8000", ⟨"Roland CR-8000 Compurhythm. Analog preset drums. Warm, classic.", ["roland", "cr8000", "compurhythm", "analog", "warm"]⟩),
  ("RolandD110", ⟨"Roland D-110 drum sounds. LA synthesis drums. 80s digital, clean.", ["roland", "d110", "la-synthesis", "80s", "digital"]⟩)
]

/-- Chunk 2 of the Drum-machine source table (entries 41-72 in insertion order), transcribed from build_catalog.py. -/
def drum_machines_c2 : List (String × Entry2) := [
  ("RolandD70", ⟨"Roland D-70 drums. 90s workstation drums. Versatile, professional.", ["roland", "d70", "workstation", "90s", "professional"]⟩),
  ("RolandDDR30", ⟨"Roland DDR-30 drum machine. Digital drums. Clean, punchy.", ["roland", "ddr30", "digital", "punchy"]⟩),
  ("RolandJD990", ⟨"Roland JD-990 drums. High-end 90s synth drums. Lush, professional.", ["roland", "jd990", "90s", "synth", "professional"]⟩),
  ("RolandMC202", ⟨"Roland MC-202 drums. Micro Composer drums. Analog, TB-303 era.", ["roland", "mc202", "analog", "micro-composer"]⟩),
  ("RolandMC303", ⟨"Roland MC-303 Groovebox drums. 90s dance machine. House, techno.", ["roland", "mc303", "groovebox", "90s", "house", "techno"]⟩),
  ("RolandMT32", ⟨"Roland MT-32 drums. LA synthesis module drums. 80s game soundtracks.", ["roland", "mt32", "la-synthesis", "80s", "game"]⟩),
  ("RolandR8", ⟨"Roland R-8 Human Rhythm Composer. High-end 80s drums. Realistic, versatile.", ["roland", "r8", "80s", "realistic", "human-rhythm"]⟩),
  ("RolandS50", ⟨"Roland S-50 sampler drums. 80s sampler. Warm, vintage digital.", ["roland", "s50", "sampler", "80s", "warm"]⟩),
  ("RolandSH09", ⟨"Roland SH-09 synth drums. Analog monosynth drums. Raw, punchy.", ["roland", "sh09", "analog", "monosynth", "raw"]⟩),
  ("RolandSystem100", ⟨"Roland System-100 modular drums. Semi-modular analog. Raw, experimental.", ["roland", "system100", "modular", "analog", "experimental"]⟩),
  ("RolandTR505", ⟨"Roland TR-505 drum machine. Digital successor to 606. Clean, usable.", ["roland", "tr505", "digital", "clean"]⟩),
  ("RolandTR606", ⟨"Roland TR-606 Drumatix. Analog companion to TB-303. Acid house essential.", ["roland", "tr606", "analog", "acid", "house", "drumatix"]⟩),
  ("RolandTR626", ⟨"Roland TR-626 Rhythm Composer. Digital drums. Latin sounds, 80s.", ["roland", "tr626", "digital", "latin", "80s"]⟩),
  ("RolandTR707", ⟨"Roland TR-707 drum machine. Digital, clean 80s drums. Pop, dance.", ["roland", "tr707", "digital", "80s", "pop", "dance"]⟩),
  ("RolandTR727", ⟨"Roland TR-727 Latin percussion. Latin version of 707. Congas, bongos, timbales.", ["roland", "tr727", "latin", "percussion", "congas", "bongos"]⟩),
  ("RolandTR808", ⟨"Roland TR-808 Rhythm Composer. THE iconic drum machine. Hip-hop, electronic essential.", ["roland", "tr808", "808", "hip-hop", "electronic", "iconic", "classic"]⟩),
  ("RolandTR909", ⟨"Roland TR-909 Rhythm Composer. House and techno essential. Punchy, powerful.", ["roland", "tr909", "909", "house", "techno", "essential", "punchy"]⟩),
  ("SakataDPM48", ⟨"Sakata DPM-48 drums. Rare Japanese drums. Unique, characterful.", ["sakata", "dpm48", "japanese", "rare", "unique"]⟩),
  ("SequentialCircuitsDrumtracks", ⟨"Sequential Circuits Drumtracks. 80s digital drums. Clean, usable.", ["sequential", "drumtracks", "80s", "digital", "clean"]⟩),
  ("SequentialCircuitsTom", ⟨"Sequential Circuits TOM. Analog drum synth. Tunable, unique.", ["sequential", "tom", "analog", "drum-synth", "tunable"]⟩),
  ("SergeModular", ⟨"Serge Modular drums. Esoteric modular drums. Experimental, unique.", ["serge", "modular", "experimental", "unique", "esoteric"]⟩),
  ("SimmonsSDS400", ⟨"Simmons SDS-400 electronic drums. 80s electronic drums. Iconic hex pads.", ["simmons", "sds400", "electronic", "80s", "hex-pads"]⟩),
  ("SimmonsSDS5", ⟨"Simmons SDS-5 electronic drums. THE 80s electronic drum sound. Iconic.", ["simmons", "sds5", "electronic", "80s", "iconic"]⟩),
  ("SoundmastersR88", ⟨"Soundmaster SR-88 drums. Budget analog drums. Lo-fi, characterful.", ["soundmaster", "sr88", "analog", "lo-fi", "budget"]⟩),
  ("UnivoxMicroRhythmer12", ⟨"Univox Micro Rhythmer 12. Vintage preset drums. 70s, retro.", ["univox", "micro-rhythmer", "vintage", "70s", "preset"]⟩),
  ("ViscoSpaceDrum", ⟨"Visco Space Drum. Unique electronic drums. Spacey, experimental.", ["visco", "space-drum", "electronic", "spacey", "experimental"]⟩),
  ("XdrumLM8953", ⟨"X-drum LM-8953. Custom drum sounds. Electronic, unique.", ["xdrum", "lm8953", "electronic", "custom"]⟩),
  ("YamahaRM50", ⟨"Yamaha RM50 drum module. 90s drum module. High-quality, versatile.", ["yamaha", "rm50", "90s", "module", "high-quality"]⟩),
  ("YamahaRX21", ⟨"Yamaha RX21 drum machine. Budget 80s drums. Digital, punchy.", ["yamaha", "rx21", "80s", "digital", "budget"]⟩),
  ("YamahaRX5", ⟨"Yamaha RX5 drum machine. Premium 80s drums. High-quality samples.", ["yamaha", "rx5", "80s", "digital", "premium"]⟩),
  ("YamahaRY30", ⟨"Yamaha RY30 drum machine. 90s AWM drums. Versatile, modern.", ["yamaha", "ry30", "90s", "awm", "versatile"]⟩),
  ("YamahaTG33", ⟨"Yamaha TG33 drums. Vector synthesis drums. Unique, evolving.", ["yamaha", "tg33", "vector", "synthesis", "unique"]⟩)
]

/-- The Drum-machine source table, transcribed from build_catalog.py; keys are the Python dict keys in insertion order (concatenation of the chunks above). -/
def drum_machines : List (String × Entry2) :=
  drum_machines_c1 ++ drum_machines_c2

/-- Standard kit sounds each drum machine supports (build_catalog.py line 1232). -/
def kit_sounds : List String := ["bd", "sd", "hh", "oh", "cp", "lt", "mt", "ht", "cy", "cb", "rs", "cr"]

/-- Chunk 1 of the VCSL instrument source table (entries 1-40 in insertion order), transcribed from build_catalog.py. -/
def vcsl_instruments_c1 : List (String × Entry3) := [
  ("ballwhistle", ⟨"Ball whistle percussion. Sports referee whistle. Shrill, attention-getting.", "percussion", ["whistle", "ball", "sports", "sfx"]⟩),
  ("bassdrum1", ⟨"VCSL acoustic bass drum 1. Deep orchestral kick. Concert, classical.", "percussion", ["bass-drum", "acoustic", "orchestral", "deep"]⟩),
  ("bassdrum2", ⟨"VCSL acoustic bass drum 2. Variant with different character. Orchestral.", "percussion", ["bass-drum", "acoustic", "orchestral", "variant"]⟩),
  ("bongo", ⟨"VCSL bongo drums. Hand drums, Latin percussion. Warm, organic.", "percussion", ["bongo", "hand-drum", "latin", "organic"]⟩),
  ("conga", ⟨"VCSL conga drums. Tall hand drums. Latin, Afro-Cuban, warm.", "percussion", ["conga", "hand-drum", "latin", "afro-cuban"]⟩),
  ("darbuka", ⟨"VCSL darbuka. Middle Eastern goblet drum. Arabic, Turkish, belly dance.", "percussion", ["darbuka", "middle-eastern", "goblet", "arabic"]⟩),
  ("framedrum", ⟨"VCSL frame drum. Large circular drum. World, shamanic, bodhran-like.", "percussion", ["frame-drum", "world", "shamanic", "circular"]⟩),
  ("snare_modern", ⟨"VCSL modern snare drum. Contemporary snare sound. Versatile, studio.", "percussion", ["snare", "modern", "studio", "versatile"]⟩),
  ("snare_hi", ⟨"VCSL high-pitched snare. Bright, cutting snare. Piccolo-style.", "percussion", ["snare", "high", "bright", "piccolo"]⟩),
  ("snare_low", ⟨"VCSL low snare drum. Deep snare sound. Fat, warm.", "percussion", ["snare", "low", "deep", "warm"]⟩),
  ("snare_rim", ⟨"VCSL snare rim shot. Rim click/shot. Sharp, accented.", "percussion", ["snare", "rim", "rimshot", "sharp"]⟩),
  ("tom_mallet", ⟨"VCSL tom with mallet. Soft attack tom. Orchestral, melodic.", "percussion", ["tom", "mallet", "soft", "orchestral"]⟩),
  ("tom_stick", ⟨"VCSL tom with stick. Standard tom hit. Rock, pop drums.", "percussion", ["tom", "stick", "rock", "pop"]⟩),
  ("tom_rim", ⟨"VCSL tom rim. Tom rim click. Accent, variation.", "percussion", ["tom", "rim", "accent"]⟩),
  ("tom2_mallet", ⟨"VCSL tom 2 with mallet. Second tom, mallet hit.", "percussion", ["tom", "mallet", "variant"]⟩),
  ("tom2_stick", ⟨"VCSL tom 2 with stick. Second tom, stick hit.", "percussion", ["tom", "stick", "variant"]⟩),
  ("tom2_rim", ⟨"VCSL tom 2 rim. Second tom rim click.", "percussion", ["tom", "rim", "variant"]⟩),
  ("timpani", ⟨"VCSL timpani. Orchestral kettle drums. Classical, dramatic.", "percussion", ["timpani", "orchestral", "classical", "dramatic"]⟩),
  ("timpani_roll", ⟨"VCSL timpani roll. Sustained timpani tremolo. Building tension.", "percussion", ["timpani", "roll", "tremolo", "tension"]⟩),
  ("timpani2", ⟨"VCSL timpani 2. Second timpani variant. Different tuning.", "percussion", ["timpani", "variant", "orchestral"]⟩),
  ("recorder_alto_stacc", ⟨"VCSL alto recorder staccato. Short, detached notes. Renaissance.", "woodwind", ["recorder", "alto", "staccato", "renaissance"]⟩),
  ("recorder_alto_vib", ⟨"VCSL alto recorder vibrato. Expressive with vibrato. Melodic.", "woodwind", ["recorder", "alto", "vibrato", "expressive"]⟩),
  ("recorder_alto_sus", ⟨"VCSL alto recorder sustained. Long, held notes. Legato.", "woodwind", ["recorder", "alto", "sustained", "legato"]⟩),
  ("recorder_bass_stacc", ⟨"VCSL bass recorder staccato. Low recorder, short notes.", "woodwind", ["recorder", "bass", "staccato", "low"]⟩),
  ("recorder_bass_vib", ⟨"VCSL bass recorder vibrato. Low recorder with vibrato.", "woodwind", ["recorder", "bass", "vibrato", "low"]⟩),
  ("recorder_bass_sus", ⟨"VCSL bass recorder sustained. Low recorder, long notes.", "woodwind", ["recorder", "bass", "sustained", "low"]⟩),
  ("recorder_soprano_stacc", ⟨"VCSL soprano recorder staccato. High recorder, short.", "woodwind", ["recorder", "soprano", "staccato", "high"]⟩),
  ("recorder_soprano_sus", ⟨"VCSL soprano recorder sustained. High recorder, long.", "woodwind", ["recorder", "soprano", "sustained", "high"]⟩),
  ("recorder_tenor_stacc", ⟨"VCSL tenor recorder staccato. Mid-range recorder, short.", "woodwind", ["recorder", "tenor", "staccato"]⟩),
  ("recorder_tenor_vib", ⟨"VCSL tenor recorder vibrato. Mid-range with vibrato.", "woodwind", ["recorder", "tenor", "vibrato"]⟩),
  ("recorder_tenor_sus", ⟨"VCSL tenor recorder sustained. Mid-range, long notes.", "woodwind", ["recorder", "tenor", "sustained"]⟩),
  ("ocarina_small_stacc", ⟨"VCSL small ocarina staccato. Small clay flute, short notes.", "woodwind", ["ocarina", "small", "staccato", "clay"]⟩),
  ("ocarina_small", ⟨"VCSL small ocarina. High-pitched clay wind instrument.", "woodwind", ["ocarina", "small", "high", "clay"]⟩),
  ("ocarina", ⟨"VCSL ocarina. Clay wind instrument. Zelda-like, pure, innocent.", "woodwind", ["ocarina", "clay", "pure", "zelda"]⟩),
  ("ocarina_vib", ⟨"VCSL ocarina vibrato. Ocarina with expressive vibrato.", "woodwind", ["ocarina", "vibrato", "expressive"]⟩),
  ("saxello", ⟨"VCSL saxello. Rare curved soprano sax. Unique, jazz.", "woodwind", ["saxello", "saxophone", "soprano", "jazz", "rare"]⟩),
  ("saxello_stacc", ⟨"VCSL saxello staccato. Short, punchy sax notes.", "woodwind", ["saxello", "saxophone", "staccato"]⟩),
  ("saxello_vib", ⟨"VCSL saxello vibrato. Expressive saxello with vibrato.", "woodwind", ["saxello", "saxophone", "vibrato"]⟩),
  ("sax", ⟨"VCSL tenor saxophone. Classic jazz/R&B sax. Rich, soulful.", "woodwind", ["saxophone", "tenor", "jazz", "soulful"]⟩),
  ("sax_stacc", ⟨"VCSL tenor sax staccato. Short, punchy sax hits.", "woodwind", ["saxophone", "tenor", "staccato"]⟩)
]

/-- Chunk 2 of the VCSL instrument source table (entries 41-80 in insertion order), transcribed from build_catalog.py. -/
def vcsl_instruments_c2 : List (String × Entry3) := [
  ("sax_vib", ⟨"VCSL tenor sax vibrato. Expressive sax with vibrato.", "woodwind", ["saxophone", "tenor", "vibrato"]⟩),
  ("pipeorgan_loud_pedal", ⟨"VCSL pipe organ loud pedal. Deep bass pedal, full power.", "organ", ["organ", "pipe", "pedal", "loud", "bass"]⟩),
  ("pipeorgan_loud", ⟨"VCSL pipe organ loud. Full registration, powerful.", "organ", ["organ", "pipe", "loud", "powerful"]⟩),
  ("pipeorgan_quiet_pedal", ⟨"VCSL pipe organ quiet pedal. Soft bass pedal.", "organ", ["organ", "pipe", "pedal", "quiet", "soft"]⟩),
  ("pipeorgan_quiet", ⟨"VCSL pipe organ quiet. Soft registration, intimate.", "organ", ["organ", "pipe", "quiet", "intimate"]⟩),
  ("organ_4inch", ⟨"VCSL 4-inch organ pipes. Small organ pipes, high.", "organ", ["organ", "small", "high", "pipes"]⟩),
  ("organ_8inch", ⟨"VCSL 8-inch organ pipes. Standard organ pipes.", "organ", ["organ", "standard", "pipes"]⟩),
  ("organ_full", ⟨"VCSL full organ. Complete organ registration. Rich, full.", "organ", ["organ", "full", "rich", "complete"]⟩),
  ("clavisynth", ⟨"VCSL clavisynth. Clavinet/synth hybrid. Funky, electronic.", "keyboards", ["clavinet", "synth", "funky", "electronic"]⟩),
  ("fmpiano", ⟨"VCSL FM piano. DX7-style FM electric piano. 80s, digital, bright.", "keyboards", ["piano", "fm", "dx7", "80s", "digital"]⟩),
  ("piano1", ⟨"VCSL piano 1. Acoustic grand piano. Classical, versatile.", "keyboards", ["piano", "acoustic", "grand", "classical"]⟩),
  ("kawai", ⟨"VCSL Kawai piano. Kawai grand piano sample. Bright, clear.", "keyboards", ["piano", "kawai", "grand", "bright"]⟩),
  ("steinway", ⟨"VCSL Steinway piano. Steinway grand piano. Rich, warm, concert.", "keyboards", ["piano", "steinway", "grand", "concert", "rich"]⟩),
  ("harp", ⟨"VCSL concert harp. Classical pedal harp. Ethereal, sweeping.", "strings", ["harp", "concert", "classical", "ethereal"]⟩),
  ("folkharp", ⟨"VCSL folk harp. Celtic/lever harp. Folk, Celtic, intimate.", "strings", ["harp", "folk", "celtic", "lever"]⟩),
  ("strumstick", ⟨"VCSL strumstick. Simple Appalachian string instrument. Folk, drone.", "strings", ["strumstick", "appalachian", "folk", "drone"]⟩),
  ("psaltery_pluck", ⟨"VCSL psaltery plucked. Medieval plucked zither. Plucky, ancient.", "strings", ["psaltery", "plucked", "medieval", "zither"]⟩),
  ("psaltery_spiccato", ⟨"VCSL psaltery spiccato. Short bowed psaltery notes.", "strings", ["psaltery", "spiccato", "bowed", "short"]⟩),
  ("psaltery_bow", ⟨"VCSL bowed psaltery. Sustained bowed psaltery. Ethereal, haunting.", "strings", ["psaltery", "bowed", "ethereal", "haunting"]⟩),
  ("dantranh", ⟨"VCSL dan tranh. Vietnamese zither. Asian, traditional, delicate.", "world", ["dan-tranh", "vietnamese", "zither", "asian"]⟩),
  ("dantranh_tremolo", ⟨"VCSL dan tranh tremolo. Tremolo technique on dan tranh.", "world", ["dan-tranh", "tremolo", "vietnamese"]⟩),
  ("dantranh_vibrato", ⟨"VCSL dan tranh vibrato. Vibrato technique on dan tranh.", "world", ["dan-tranh", "vibrato", "vietnamese"]⟩),
  ("harmonica", ⟨"VCSL harmonica. Blues harp. Expressive, folk, blues.", "woodwind", ["harmonica", "blues", "harp", "folk"]⟩),
  ("harmonica_soft", ⟨"VCSL soft harmonica. Gentle harmonica playing.", "woodwind", ["harmonica", "soft", "gentle"]⟩),
  ("harmonica_vib", ⟨"VCSL harmonica vibrato. Harmonica with vibrato.", "woodwind", ["harmonica", "vibrato", "expressive"]⟩),
  ("super64", ⟨"VCSL Super 64 chromatic harmonica. Large chromatic harmonica.", "woodwind", ["harmonica", "chromatic", "super64"]⟩),
  ("super64_acc", ⟨"VCSL Super 64 accented. Strong attack harmonica.", "woodwind", ["harmonica", "chromatic", "accented"]⟩),
  ("super64_vib", ⟨"VCSL Super 64 vibrato. Chromatic harmonica with vibrato.", "woodwind", ["harmonica", "chromatic", "vibrato"]⟩),
  ("didgeridoo", ⟨"VCSL didgeridoo. Australian Aboriginal drone instrument. Deep, drone, circular breathing.", "world", ["didgeridoo", "australian", "drone", "aboriginal"]⟩),
  ("agogo", ⟨"VCSL agogo bells. Brazilian percussion bells. Latin, samba, bright.", "percussion", ["agogo", "bells", "brazilian", "samba"]⟩),
  ("anvil", ⟨"VCSL anvil. Metal anvil hit. Industrial, orchestral effect.", "percussion", ["anvil", "metal", "industrial", "orchestral"]⟩),
  ("kalimba", ⟨"VCSL kalimba. African thumb piano. Plucky, gentle, melodic.", "percussion", ["kalimba", "thumb-piano", "african", "melodic"]⟩),
  ("kalimba_pad", ⟨"VCSL kalimba pad. Sustained kalimba pad sound. Ambient, ethereal.", "percussion", ["kalimba", "pad", "ambient", "ethereal"]⟩),
  ("marimba", ⟨"VCSL marimba. Large wooden mallet percussion. Warm, resonant.", "percussion", ["marimba", "mallet", "wooden", "warm"]⟩),
  ("xylophone", ⟨"VCSL xylophone. Bright wooden mallet percussion. Crisp, piercing.", "percussion", ["xylophone", "mallet", "bright", "crisp"]⟩),
  ("xylophone_hard", ⟨"VCSL xylophone hard mallets. Brighter, more attack.", "percussion", ["xylophone", "hard", "bright", "attack"]⟩),
  ("trainwhistle", ⟨"VCSL train whistle. Steam locomotive whistle. Nostalgic, effect.", "sfx", ["train", "whistle", "steam", "nostalgic"]⟩),
  ("siren", ⟨"VCSL siren. Emergency siren sound. Alert, urgent.", "sfx", ["siren", "emergency", "alert", "urgent"]⟩),
  ("wineglass", ⟨"VCSL wineglass. Singing glass rim. Ethereal, glass harmonica-like.", "sfx", ["wineglass", "glass", "ethereal", "singing"]⟩),
  ("wineglass_slow", ⟨"VCSL wineglass slow. Slowly bowed wineglass. Sustained, haunting.", "sfx", ["wineglass", "slow", "sustained", "haunting"]⟩)
]

/-- The VCSL instrument source table, transcribed from build_catalog.py; keys are the Python dict keys in insertion order (concatenation of the chunks above). -/
def vcsl_instruments : List (String × Entry3) :=
  vcsl_instruments_c1 ++ vcsl_instruments_c2

/-- Chunk 1 of the Wavetable source table (entries 1-40 in insertion order), transcribed from build_catalog.py. -/
def wavetables_c1 : List (String × Entry3) := [
  ("wt_01", ⟨"Wavetable waveform 01. Basic synthesis texture. Evolving, complex.", "wavetable", ["wavetable", "basic", "synthesis", "evolving"]⟩),
  ("wt_02", ⟨"Wavetable waveform 02. Basic synthesis texture variant 2.", "wavetable", ["wavetable", "basic", "synthesis"]⟩),
  ("wt_03", ⟨"Wavetable waveform 03. Basic synthesis texture variant 3.", "wavetable", ["wavetable", "basic", "synthesis"]⟩),
  ("wt_04", ⟨"Wavetable waveform 04. Basic synthesis texture variant 4.", "wavetable", ["wavetable", "basic", "synthesis"]⟩),
  ("wt_05", ⟨"Wavetable waveform 05. Basic synthesis texture variant 5.", "wavetable", ["wavetable", "basic", "synthesis"]⟩),
  ("wt_06", ⟨"Wavetable waveform 06. Basic synthesis texture variant 6.", "wavetable", ["wavetable", "basic", "synthesis"]⟩),
  ("wt_07", ⟨"Wavetable waveform 07. Basic synthesis texture variant 7.", "wavetable", ["wavetable", "basic", "synthesis"]⟩),
  ("wt_08", ⟨"Wavetable waveform 08. Basic synthesis texture variant 8.", "wavetable", ["wavetable", "basic", "synthesis"]⟩),
  ("wt_09", ⟨"Wavetable waveform 09. Basic synthesis texture variant 9.", "wavetable", ["wavetable", "basic", "synthesis"]⟩),
  ("wt_10", ⟨"Wavetable waveform 10. Basic synthesis texture variant 10.", "wavetable", ["wavetable", "basic", "synthesis"]⟩),
  ("wt_11", ⟨"Wavetable waveform 11. Basic synthesis texture variant 11.", "wavetable", ["wavetable", "basic", "synthesis"]⟩),
  ("wt_12", ⟨"Wavetable waveform 12. Basic synthesis texture variant 12.", "wavetable", ["wavetable", "basic", "synthesis"]⟩),
  ("wt_13", ⟨"Wavetable waveform 13. Basic synthesis texture variant 13.", "wavetable", ["wavetable", "basic", "synthesis"]⟩),
  ("wt_14", ⟨"Wavetable waveform 14. Basic synthesis texture variant 14.", "wavetable", ["wavetable", "basic", "synthesis"]⟩),
  ("wt_15", ⟨"Wavetable waveform 15. Basic synthesis texture variant 15.", "wavetable", ["wavetable", "basic", "synthesis"]⟩),
  ("wt_16", ⟨"Wavetable waveform 16. Basic synthesis texture variant 16.", "wavetable", ["wavetable", "basic", "synthesis"]⟩),
  ("wt_17", ⟨"Wavetable waveform 17. Basic synthesis texture variant 17.", "wavetable", ["wavetable", "basic", "synthesis"]⟩),
  ("wt_18", ⟨"Wavetable waveform 18. Basic synthesis texture variant 18.", "wavetable", ["wavetable", "basic", "synthesis"]⟩),
  ("wt_19", ⟨"Wavetable waveform 19. Basic synthesis texture variant 19.", "wavetable", ["wavetable", "basic", "synthesis"]⟩),
  ("wt_20", ⟨"Wavetable waveform 20. Basic synthesis texture variant 20.", "wavetable", ["wavetable", "basic", "synthesis"]⟩),
  ("wt_aguitar", ⟨"Wavetable acoustic guitar. Guitar harmonic content as wavetable. Organic, plucky.", "wavetable", ["wavetable", "guitar", "acoustic", "organic"]⟩),
  ("wt_altosax", ⟨"Wavetable alto saxophone. Sax timbre as wavetable. Reedy, expressive.", "wavetable", ["wavetable", "saxophone", "alto", "reedy"]⟩),
  ("wt_cello", ⟨"Wavetable cello. Cello harmonics as wavetable. Rich, bowed, strings.", "wavetable", ["wavetable", "cello", "strings", "bowed"]⟩),
  ("wt_clarinett", ⟨"Wavetable clarinet. Clarinet timbre as wavetable. Woody, warm.", "wavetable", ["wavetable", "clarinet", "woody", "warm"]⟩),
  ("wt_clavinet", ⟨"Wavetable clavinet. Funky clavinet as wavetable. Percussive, funky.", "wavetable", ["wavetable", "clavinet", "funky", "percussive"]⟩),
  ("wt_dbass", ⟨"Wavetable double bass. Upright bass as wavetable. Deep, woody, organic.", "wavetable", ["wavetable", "bass", "double-bass", "woody"]⟩),
  ("wt_ebass", ⟨"Wavetable electric bass. Electric bass as wavetable. Punchy, round.", "wavetable", ["wavetable", "bass", "electric", "punchy"]⟩),
  ("wt_eguitar", ⟨"Wavetable electric guitar. Electric guitar as wavetable. Versatile, harmonic.", "wavetable", ["wavetable", "guitar", "electric", "harmonic"]⟩),
  ("wt_eorgan", ⟨"Wavetable electric organ. Organ drawbars as wavetable. Classic, keys.", "wavetable", ["wavetable", "organ", "electric", "drawbar"]⟩),
  ("wt_epiano", ⟨"Wavetable electric piano. Rhodes-style as wavetable. Warm, bell-like.", "wavetable", ["wavetable", "piano", "electric", "rhodes"]⟩),
  ("wt_flute", ⟨"Wavetable flute. Flute timbre as wavetable. Airy, breathy.", "wavetable", ["wavetable", "flute", "airy", "breathy"]⟩),
  ("wt_oboe", ⟨"Wavetable oboe. Oboe as wavetable. Nasal, expressive, reedy.", "wavetable", ["wavetable", "oboe", "nasal", "reedy"]⟩),
  ("wt_piano", ⟨"Wavetable piano. Piano harmonics as wavetable. Bright, rich.", "wavetable", ["wavetable", "piano", "acoustic", "rich"]⟩),
  ("wt_theremin", ⟨"Wavetable theremin. Theremin-style wavetable. Eerie, vocal-like, sci-fi.", "wavetable", ["wavetable", "theremin", "eerie", "sci-fi"]⟩),
  ("wt_violin", ⟨"Wavetable violin. Violin as wavetable. Expressive, bowed, strings.", "wavetable", ["wavetable", "violin", "strings", "bowed"]⟩),
  ("wt_fmsynth", ⟨"Wavetable FM synthesis. FM synth textures. Digital, bell-like, metallic.", "wavetable", ["wavetable", "fm", "digital", "metallic"]⟩),
  ("wt_distorted", ⟨"Wavetable distorted. Heavy distortion wavetable. Aggressive, saturated.", "wavetable", ["wavetable", "distortion", "aggressive", "saturated"]⟩),
  ("wt_granular", ⟨"Wavetable granular. Granular synthesis texture. Textural, fragmented.", "wavetable", ["wavetable", "granular", "textural", "fragmented"]⟩),
  ("wt_birds", ⟨"Wavetable birds. Bird-like textures. Nature, chirping, organic.", "wavetable", ["wavetable", "birds", "nature", "organic"]⟩),
  ("wt_bitreduced", ⟨"Wavetable bit-reduced. Lo-fi, crushed. 8-bit, retro, crunchy.", "wavetable", ["wavetable", "bitcrush", "lo-fi", "8-bit"]⟩)
]

/-- Chunk 2 of the Wavetable source table (entries 41-59 in insertion order), transcribed from build_catalog.py. -/
def wavetables_c2 : List (String × Entry3) := [
  ("wt_hdrawn", ⟨"Wavetable hand-drawn. Custom drawn waveforms. Unique, experimental.", "wavetable", ["wavetable", "hand-drawn", "custom", "experimental"]⟩),
  ("wt_hvoice", ⟨"Wavetable harmonic voice. Vocal harmonics. Choir-like, ethereal.", "wavetable", ["wavetable", "voice", "harmonic", "ethereal"]⟩),
  ("wt_linear", ⟨"Wavetable linear. Linear waveform morphing. Smooth, evolving.", "wavetable", ["wavetable", "linear", "smooth", "morphing"]⟩),
  ("wt_oscchip", ⟨"Wavetable oscillator chip. Chip-style waveforms. 8-bit, chiptune, retro.", "wavetable", ["wavetable", "chip", "8-bit", "chiptune"]⟩),
  ("wt_overtone", ⟨"Wavetable overtone. Rich overtone content. Harmonic, complex.", "wavetable", ["wavetable", "overtone", "harmonic", "complex"]⟩),
  ("wt_pluckalgo", ⟨"Wavetable pluck algorithm. Karplus-Strong style. Plucky, string-like.", "wavetable", ["wavetable", "pluck", "karplus-strong", "string"]⟩),
  ("wt_raw", ⟨"Wavetable raw. Unprocessed raw waveforms. Pure, fundamental.", "wavetable", ["wavetable", "raw", "pure", "unprocessed"]⟩),
  ("wt_sinharm", ⟨"Wavetable sine harmonic. Additive sine harmonics. Clean, pure, harmonic.", "wavetable", ["wavetable", "sine", "harmonic", "additive"]⟩),
  ("wt_snippets", ⟨"Wavetable snippets. Short audio snippets as wavetable. Glitchy, textural.", "wavetable", ["wavetable", "snippets", "glitch", "textural"]⟩),
  ("wt_stereo", ⟨"Wavetable stereo. Wide stereo wavetables. Spacious, wide.", "wavetable", ["wavetable", "stereo", "wide", "spacious"]⟩),
  ("wt_stringbox", ⟨"Wavetable string box. String ensemble wavetable. Lush, ensemble.", "wavetable", ["wavetable", "strings", "ensemble", "lush"]⟩),
  ("wt_symetric", ⟨"Wavetable symmetric. Symmetric waveforms. Balanced, clean.", "wavetable", ["wavetable", "symmetric", "balanced", "clean"]⟩),
  ("wt_vgame", ⟨"Wavetable video game. Video game sound textures. Retro, game, 8-bit.", "wavetable", ["wavetable", "video-game", "retro", "8-bit"]⟩),
  ("wt_vgamebasic", ⟨"Wavetable video game basic. Simple game waveforms. Chiptune, simple.", "wavetable", ["wavetable", "video-game", "basic", "chiptune"]⟩),
  ("wt_c604", ⟨"Wavetable C604. C64-style chip waveforms. Commodore, SID, 8-bit.", "wavetable", ["wavetable", "c64", "sid", "commodore"]⟩),
  ("wt_saw", ⟨"Wavetable sawtooth. Band-limited saw wave. Classic synth, aliasing-free.", "wavetable", ["wavetable", "sawtooth", "band-limited", "classic"]⟩),
  ("wt_square", ⟨"Wavetable square. Band-limited square wave. Hollow, punchy.", "wavetable", ["wavetable", "square", "band-limited", "hollow"]⟩),
  ("wt_triangle", ⟨"Wavetable triangle. Band-limited triangle wave. Soft, mellow.", "wavetable", ["wavetable", "triangle", "band-limited", "mellow"]⟩),
  ("wt_sine", ⟨"Wavetable sine. Pure sine as wavetable. Pure, fundamental, sub.", "wavetable", ["wavetable", "sine", "pure", "fundamental"]⟩)
]

/-- The Wavetable source table, transcribed from build_catalog.py; keys are the Python dict keys in insertion order (concatenation of the chunks above). -/
def wavetables : List (String × Entry3) :=
  wavetables_c1 ++ wavetables_c2
/-- Python `str.lower()` as applied to the ASCII drum-machine keys
(build_catalog.py line 1237); on ASCII strings it lowercases A-Z. -/
def pyLower (s : String) : String := s.toLower

/-- Loop body for GM soundfonts (build_catalog.py lines 769-778). -/
def gmRecord (kv : String × Entry4) : SoundEntry :=
  { id := kv.1, name := kv.1, description := kv.2.description,
    source := "soundfonts", category := kv.2.category,
    tags := kv.2.tags, usage := kv.2.usage }

/-- Loop body for Dirt-Samples (build_catalog.py lines 1058-1067). -/
def dirtRecord (kv : String × Entry3) : SoundEntry :=
  { id := kv.1, name := kv.1, description := kv.2.description,
    source := "dirt-samples", category := kv.2.category,
    tags := kv.2.tags, usage := "s(\"" ++ kv.1 ++ "\")" }

/-- Loop body for built-in synths (build_catalog.py lines 1113-1122). -/
def synthRecord (kv : String × Entry4) : SoundEntry :=
  { id := kv.1, name := kv.1, description := kv.2.description,
    source := "builtin", category := kv.2.category,
    tags := kv.2.tags, usage := kv.2.usage }

/-- Loop body for drum machines (build_catalog.py lines 1235-1244): the id is
the lowercased machine name, the twelve kit sounds are appended to the
description, and the two tags "drum-machine" and "kit" are appended to the
tag list. -/
def drumRecord (kv : String × Entry2) : SoundEntry :=
  { id := pyLower kv.1, name := kv.1,
    description := kv.2.description ++ " Kit includes: " ++
      String.intercalate ", " kit_sounds ++ ".",
    source := "drum-machines", category := "drum_machine",
    tags := kv.2.tags ++ ["drum-machine", "kit"],
    usage := "s(\"bd sd hh hh\").bank(\"" ++ kv.1 ++ "\")" }

/-- Loop body for VCSL instruments (build_catalog.py lines 1360-1369): the id
is the key prefixed with "vcsl_", and three fixed tags are appended. -/
def vcslRecord (kv : String × Entry3) : SoundEntry :=
  { id := "vcsl_" ++ kv.1, name := kv.1, description := kv.2.description,
    source := "vcsl", category := kv.2.category,
    tags := kv.2.tags ++ ["vcsl", "acoustic", "sample-library"],
    usage := "note(\"c4 e4 g4\").s(\"" ++ kv.1 ++ "\")" }

/-- Loop body for wavetables (build_catalog.py lines 1448-1457). -/
def wtRecord (kv : String × Entry3) : SoundEntry :=
  { id := kv.1, name := kv.1, description := kv.2.description,
    source := "wavetables", category := kv.2.category,
    tags := kv.2.tags ++ ["looping", "synthesis"],
    usage := "note(\"c4 e4 g4\").s(\"" ++ kv.1 ++ "\").clip(2)" }

/-- Stage 1, `build_catalog` (build_catalog.py lines 39-1459): the six source
tables are appended to the output list in source order, one record per table
entry, in each table's insertion order. -/
def build_catalog : List SoundEntry :=
  gm_soundfonts.map gmRecord ++ dirt_samples.map dirtRecord ++
  builtin_synths.map synthRecord ++ drum_machines.map drumRecord ++
  vcsl_instruments.map vcslRecord ++ wavetables.map wtRecord
/-- Python-level error values stage 2 can raise: key lookup on a dict,
type errors from `str.join`, list indexing, and a failed import. -/
inductive PyErr where
  | keyError (k : String)
  | typeError
  | indexError
  | importError
deriving DecidableEq

/-- JSON-level values as they occur in the catalog pipeline: the strings and
string lists stage 1 emits, plus embedding vectors (of abstract type `V`)
attached by stage 2. -/
inductive Val (V : Type) where
  | str : String → Val V
  | strList : List String → Val V
  | vec : V → Val V
deriving DecidableEq

/-- A decoded JSON object: an association list of fields in insertion order
(Python dicts preserve insertion order). -/
abbrev JObj (V : Type) : Type := List (String × Val V)

/-- Python dict lookup `obj[k]`: the value at the key, or a KeyError. -/
def getItem {V : Type} (o : JObj V) (k : String) : Except PyErr (Val V) :=
  match o.lookup k with
  | some v => .ok v
  | none => .error (.keyError k)

/-- Python dict assignment `obj[k] = v`: replace the value at an existing key
in place, else append the new key at the end. -/
def setItem {V : Type} (o : JObj V) (k : String) (v : Val V) : JObj V :=
  match o with
  | [] => [(k, v)]
  | (k', v') :: rest =>
    if k' = k then (k, v) :: rest else (k', v') :: setItem rest k v

/-- Python list indexing `xs[i]`, raising IndexError when out of range. -/
def pyIndex {α : Type} (xs : List α) (i : Nat) : Except PyErr α :=
  match xs.get? i with
  | some x => .ok x
  | none => .error .indexError

/-- Rendering of a value interpolated into an f-string (Python `str()`), as
used for the category and source fields of `build_search_text`.  A string
renders as itself; the non-string cases never arise in any theorem below
(stage-1 catalogs hold strings there) and are left abstract. -/
def fmtVal {V : Type} : Val V → String
  | .str s => s
  | .strList _ => ""
  | .vec _ => ""

/-- Python `sep.join(x)` over a field value, as in `", ".join(sound["tags"])`:
a list joins its elements when they are all strings, a string is an iterable
of its characters, and anything else raises TypeError. -/
def pyJoinVal {V : Type} (sep : String) (v : Val V) : Except PyErr String :=
  match v with
  | .str s => .ok (String.intercalate sep (s.toList.map Char.toString))
  | .strList l => .ok (String.intercalate sep l)
  | .vec _ => .error .typeError

/-- Element-wise evaluation of a Python loop or comprehension body over a
list, in order, stopping at the first exception. -/
def mapExcept {α β : Type} (f : α → Except PyErr β) : List α → Except PyErr (List β)
  | [] => .ok []
  | a :: l => do
    let b ← f a
    let bs ← mapExcept f l
    pure (b :: bs)

/-- Python `sep.join(parts)` over an evaluated list of values, as in
`" | ".join(parts)`: every element must be a string, else TypeError. -/
def pyJoinList {V : Type} (sep : String) (elems : List (Val V)) : Except PyErr String := do
  let strs ← mapExcept (fun v =>
    match v with
    | Val.str s => Except.ok s
    | _ => Except.error PyErr.typeError) elems
  pure (String.intercalate sep strs)

/-- Stage 2, `build_search_text` (generate_embeddings.py lines 107-120): the
five parts in source order — name, description, "Category: " + category,
"Source: " + source, "Tags: " + comma-joined tags — joined with " | ".
Field accesses and the two joins fail exactly where Python would, in Python's
evaluation order. -/
def build_search_text {V : Type} (sound : JObj V) : Except PyErr String := do
  let n ← getItem sound "name"
  let d ← getItem sound "description"
  let c ← getItem sound "category"
  let src ← getItem sound "source"
  let tg ← getItem sound "tags"
  let tagsJoined ← pyJoinVal ", " tg
  pyJoinList " | "
    [n, d, .str ("Category: " ++ fmtVal c), .str ("Source: " ++ fmtVal src),
     .str ("Tags: " ++ tagsJoined)]

/-- An embedding backend handle, reduced to its batch-encode capability:
a list of texts in, one vector (of abstract type `V`) per text out.  The
library internals — batching parameters, dense-vector extraction,
normalization — live behind this function. -/
structure Model (V : Type) where
  encode : List String → List V

/-- The import environment stage 2 runs in: which of the two embedding
library bindings can be imported and constructed (`none` models an
ImportError for that binding). -/
structure Env (V : Type) where
  flag : Option (Model V)
  st : Option (Model V)

/-- Stage 2, `load_bge_m3` (generate_embeddings.py lines 26-50): try the
FlagEmbedding binding first and return it tagged "flagembedding"; on
ImportError fall back to sentence-transformers tagged
"sentence-transformers"; a second ImportError propagates unhandled. -/
def load_bge_m3 {V : Type} (env : Env V) : Except PyErr (Model V × String) :=
  match env.flag with
  | some m => .ok (m, "flagembedding")
  | none =>
    match env.st with
    | some m => .ok (m, "sentence-transformers")
    | none => .error .importError

/-- Stage 2, `generate_embeddings_flagembedding` (generate_embeddings.py
lines 53-69): one batch call of the backend; the encode parameters and the
dense_vecs extraction are inside the abstract `encode`. -/
def generate_embeddings_flagembedding {V : Type} (model : Model V)
    (texts : List String) : List V :=
  model.encode texts

/-- Stage 2, `generate_embeddings_sentence_transformers`
(generate_embeddings.py lines 72-81): one batch call of the backend. -/
def generate_embeddings_sentence_transformers {V : Type} (model : Model V)
    (texts : List String) : List V :=
  model.encode texts

/-- The module-level `_model_cache` (generate_embeddings.py line 85): a model
handle and a backend tag, both `None` initially. -/
structure Cache (V : Type) where
  model : Option (Model V)
  backend : Option String

/-- The initial cache value `{"model": None, "backend": None}`. -/
def emptyCache {V : Type} : Cache V := ⟨none, none⟩

/-- Body of `generate_embedding` once a model handle is at hand
(generate_embeddings.py lines 96-104): dispatch on the backend tag, embed the
one-element batch `[text]`, return element 0 of the result. -/
def embedOne {V : Type} (m : Model V) (backend : Option String) (text : String) :
    Except PyErr V :=
  let embeddings :=
    if backend = some "flagembedding" then generate_embeddings_flagembedding m [text]
    else generate_embeddings_sentence_transformers m [text]
  pyIndex embeddings 0

/-- Stage 2, `generate_embedding` (generate_embeddings.py lines 88-104), as an
explicit state transformer over the module cache: when the model slot is
`none` the loader runs and the cache is populated, then the cached handle and
tag embed the single text.  The cache is returned alongside the result even on
failure, since the Python module-level dict survives an exception: a failed
load leaves it untouched, while a failure after the load keeps the populated
cache. -/
def generate_embedding {V : Type} (env : Env V) (cache : Cache V) (text : String) :
    Except PyErr V × Cache V :=
  match cache.model with
  | none =>
    match load_bge_m3 env with
    | .error e => (.error e, cache)
    | .ok (m, b) => (embedOne m (some b) text, ⟨some m, some b⟩)
  | some m => (embedOne m cache.backend text, cache)

/-- Driver for a sequence of `generate_embedding` calls within one process:
threads the module cache through the calls (continuing past failed calls, as
a caller that catches exceptions would) and counts how many calls invoked the
model loader — the source runs `load_bge_m3` exactly when a call begins with
an empty model slot (generate_embeddings.py line 93). -/
def runCalls {V : Type} (env : Env V) : Cache V → List String → Cache V × Nat
  | c, [] => (c, 0)
  | c, t :: ts =>
    let r := generate_embedding env c t
    let rest := runCalls env r.2 ts
    (rest.1, (if c.model.isNone then 1 else 0) + rest.2)

/-- The attach loop of `main` (generate_embeddings.py lines 172-174):
`sound["embedding"] = embeddings[i]` and `sound["search_text"] = texts[i]`
for each record in order. -/
def attachEmbeddings {V : Type} (sounds : List (JObj V)) (embeddings : List V)
    (texts : List String) : Except PyErr (List (JObj V)) :=
  mapExcept (fun p => do
    let e ← pyIndex embeddings p.1
    let t ← pyIndex texts p.1
    pure (setItem (setItem p.2 "embedding" (.vec e)) "search_text" (.str t)))
    sounds.enum

/-- Stage 2, `main` (generate_embeddings.py lines 123-193), with file I/O at
the boundary: takes the decoded catalog array and returns the array that
would be serialized, or the first uncaught Python error.  The two `pyIndex`
binds model the sample printouts `texts[0][:200]` (line 155) and
`len(embeddings[0])` (line 168), both of which evaluate before the output
file is written; on any error no output is produced. -/
def mainCore {V : Type} (env : Env V) (sounds : List (JObj V)) :
    Except PyErr (List (JObj V)) := do
  let lb ← load_bge_m3 env
  let texts ← mapExcept build_search_text sounds
  let _ ← pyIndex texts 0
  let embeddings :=
    if lb.2 = "flagembedding" then generate_embeddings_flagembedding lb.1 texts
    else generate_embeddings_sentence_transformers lb.1 texts
  let _ ← pyIndex embeddings 0
  attachEmbeddings sounds embeddings texts

/-- Stripping the two stage-2 fields from a record (the round-trip test's
strip step). -/
def stripAdded {V : Type} (o : JObj V) : JObj V :=
  o.filter (fun kv => kv.1 != "embedding" && kv.1 != "search_text")

/-- The JSON object a stage-1 `SoundEntry` decodes to: the seven fields in
the insertion order build_catalog.py writes them. -/
def recToObj {V : Type} (e : SoundEntry) : JObj V :=
  [("id", .str e.id), ("name", .str e.name), ("description", .str e.description),
   ("source", .str e.source), ("category", .str e.category),
   ("tags", .strList e.tags), ("example", .str e.usage)]

/-- The search text the specification ascribes to a record: the fixed-order,
fixed-delimiter join of name, description, "Category: " + category,
"Source: " + source, and "Tags: " + comma-space-joined tags. -/
def searchTextOf (e : SoundEntry) : String :=
  String.intercalate " | "
    [e.name, e.description, "Category: " ++ e.category,
     "Source: " ++ e.source, "Tags: " ++ String.intercalate ", " e.tags]
/-- The five fields `build_search_text` accesses, in access order. -/
def expectedFields : List String := ["name", "description", "category", "source", "tags"]

/-- A record lacking at least one of the five fields `build_search_text`
reads: the malformed-input shape of the error-handling taxonomy. -/
def missingExpectedField {V : Type} (o : JObj V) : Prop :=
  ∃ k, k ∈ expectedFields ∧ o.lookup k = none

/-- The two-record scenario's first record, as a stage-1 entry: id "sine",
name "sine", description "pure tone", source "builtin", category
"oscillator", tags ["pure"]. -/
def sineEntry : SoundEntry :=
  { id := "sine", name := "sine", description := "pure tone",
    source := "builtin", category := "oscillator", tags := ["pure"],
    usage := "s(\"sine\")" }

/-- The scenario record decoded as a JSON object. -/
def sineObj : JObj Nat := recToObj sineEntry

/-- A malformed record: it has a name but no description (nor the other
expected fields). -/
def badObj : JObj Nat := [("name", Val.str "broken")]

/-- A concrete stand-in backend for the closed checks below: it returns the
zero vector (here one `Nat`) for every text, so batches keep their length. -/
def constModel : Model Nat := ⟨fun ts => ts.map (fun _ => 0)⟩

/-- An environment in which only the FlagEmbedding binding imports. -/
def envFlagOnly : Env Nat := ⟨some constModel, none⟩

/-- An environment in which only the sentence-transformers binding imports. -/
def envStOnly : Env Nat := ⟨none, some constModel⟩

/-- An environment in which neither embedding binding imports. -/
def envNone : Env Nat := ⟨none, none⟩

/-- A module cache already populated with the stand-in backend under the
"flagembedding" tag. -/
def cachePopulated : Cache Nat := ⟨some constModel, some "flagembedding"⟩
section Helpers

variable {V : Type}

/-- Indexing within bounds succeeds. -/
theorem pyIndex_ok_of_lt {α : Type} (xs : List α) (i : Nat) (h : i < xs.length) :
    ∃ x, pyIndex xs i = Except.ok x :=
  ⟨xs.get ⟨i, h⟩, by
    simp [pyIndex, List.get?_eq_getElem?, List.getElem?_eq_getElem h,
      List.get_eq_getElem]⟩

/-- Indexing a cons cell at zero. -/
theorem pyIndex_cons_zero {α : Type} (x : α) (xs : List α) :
    pyIndex (x :: xs) 0 = Except.ok x := rfl

/-- On a serialized stage-1 record, `build_search_text` succeeds and returns
the five-part join. -/
theorem bst_recToObj (e : SoundEntry) :
    build_search_text (recToObj e : JObj V) = Except.ok (searchTextOf e) := rfl

/-- Search-text derivation over a whole stage-1-shaped catalog. -/
theorem mapExcept_bst (entries : List SoundEntry) :
    mapExcept build_search_text (entries.map (recToObj : SoundEntry → JObj V)) =
      Except.ok (entries.map searchTextOf) := by
  induction entries with
  | nil => rfl
  | cons e rest ih =>
    simp only [List.map_cons, mapExcept, bst_recToObj, ih]
    rfl

/-- Attaching the two stage-2 fields to a stage-1 record and stripping them
again is the identity: the seven original keys differ from both new keys, so
`setItem` appends and the filter removes exactly the appended pairs. -/
theorem strip_attach_recToObj (e : SoundEntry) (v : Val V) (t : Val V) :
    stripAdded (setItem (setItem (recToObj e) "embedding" v) "search_text" t) =
      recToObj e := rfl

end Helpers
section MoreHelpers

variable {V : Type}

/-- Bind on a successful `Except` computation. -/
theorem exceptBind_ok {α β : Type} (a : α) (f : α → Except PyErr β) :
    (Except.ok a >>= f) = f a := rfl

/-- Bind on a failed `Except` computation short-circuits. -/
theorem exceptBind_err {α β : Type} (e : PyErr) (f : α → Except PyErr β) :
    ((Except.error e : Except PyErr α) >>= f) = Except.error e := rfl

/-- The attach loop over a stage-1-shaped catalog succeeds when the embedding
and text lists are long enough, and stripping the two added fields undoes
it. -/
theorem attach_from (entries : List SoundEntry) :
    ∀ (k : Nat) (es : List V) (ts : List String),
    k + entries.length ≤ es.length → k + entries.length ≤ ts.length →
    ∃ out, mapExcept (fun p => do
        let e ← pyIndex es p.1
        let t ← pyIndex ts p.1
        pure (setItem (setItem p.2 "embedding" (Val.vec e)) "search_text" (Val.str t)))
        ((entries.map recToObj).enumFrom k) = Except.ok out
      ∧ out.map stripAdded = entries.map recToObj ∧ out.length = entries.length := by
  induction entries with
  | nil => exact fun k es ts h1 h2 => ⟨[], rfl, rfl, rfl⟩
  | cons e rest ih =>
    intro k es ts h1 h2
    simp only [List.length_cons] at h1 h2
    obtain ⟨v, hv⟩ := pyIndex_ok_of_lt es k (by omega)
    obtain ⟨t, ht⟩ := pyIndex_ok_of_lt ts k (by omega)
    obtain ⟨out, hout, hstrip, hl⟩ := ih (k + 1) es ts (by omega) (by omega)
    refine ⟨setItem (setItem (recToObj e) "embedding" (Val.vec v)) "search_text"
      (Val.str t) :: out, ?_, ?_, ?_⟩
    · simp only [List.map_cons, List.enumFrom_cons, mapExcept, hv, ht,
        exceptBind_ok, hout]
      rfl
    · simp [hstrip, strip_attach_recToObj]
    · simp [hl]

end MoreHelpers

/-- C1: for every input record having fields name, description, category,
source and tags (strings, with tags a string list), the search text built by
stage 2 is the " | "-join, in fixed order, of name, description,
"Category: " + category, "Source: " + source, and "Tags: " + the
comma-space join of tags. -/
theorem build_search_text_joins_fields {V : Type} (o : JObj V)
    (n d c s : String) (tg : List String)
    (hn : getItem o "name" = Except.ok (Val.str n))
    (hd : getItem o "description" = Except.ok (Val.str d))
    (hc : getItem o "category" = Except.ok (Val.str c))
    (hs : getItem o "source" = Except.ok (Val.str s))
    (ht : getItem o "tags" = Except.ok (Val.strList tg)) :
    build_search_text o = Except.ok (String.intercalate " | "
      [n, d, "Category: " ++ c, "Source: " ++ s,
       "Tags: " ++ String.intercalate ", " tg]) := by
  simp only [build_search_text, hn, hd, hc, hs, ht, exceptBind_ok]
  rfl

/-- Concrete check of C1 on the specification's scenario record: the record
with name "sine", description "pure tone", category "oscillator", source
"builtin" and tags ["pure"] gets exactly the quoted search text. -/
theorem build_search_text_joins_fields_witness :
    build_search_text sineObj =
      Except.ok "sine | pure tone | Category: oscillator | Source: builtin | Tags: pure" :=
  build_search_text_joins_fields sineObj "sine" "pure tone" "oscillator" "builtin"
    ["pure"] rfl rfl rfl rfl rfl
/-- C2 (amended): for every nonempty catalog of stage-1-shaped records, run
through stage 2 with any successfully loaded backend whose encoder returns
one vector per text, removing the embedding and search_text fields from
every output record yields exactly the input catalog: same number of
records, same order, every original field unchanged. -/
theorem roundtrip_stage1_shaped {V : Type} (env : Env V) (m : Model V) (b : String)
    (entries : List SoundEntry)
    (hload : load_bge_m3 env = Except.ok (m, b))
    (hlen : ∀ ts, (m.encode ts).length = ts.length)
    (hne : entries ≠ []) :
    ∃ out, mainCore env (entries.map recToObj) = Except.ok out ∧
      out.map stripAdded = entries.map recToObj ∧ out.length = entries.length := by
  obtain ⟨e0, rest, rfl⟩ := List.exists_cons_of_ne_nil hne
  have htexts : mapExcept build_search_text
      (recToObj e0 :: rest.map recToObj : List (JObj V)) =
      Except.ok (searchTextOf e0 :: rest.map searchTextOf) := by
    simpa using mapExcept_bst (V := V) (e0 :: rest)
  have hemb : (if b = "flagembedding"
      then generate_embeddings_flagembedding m (searchTextOf e0 :: rest.map searchTextOf)
      else generate_embeddings_sentence_transformers m
        (searchTextOf e0 :: rest.map searchTextOf)) =
      m.encode (searchTextOf e0 :: rest.map searchTextOf) := by
    by_cases hb : b = "flagembedding" <;>
      simp [hb, generate_embeddings_flagembedding,
        generate_embeddings_sentence_transformers]
  obtain ⟨v0, hv0⟩ := pyIndex_ok_of_lt
    (m.encode (searchTextOf e0 :: rest.map searchTextOf)) 0 (by simp [hlen])
  obtain ⟨out, hout, hstrip, hl⟩ := attach_from (V := V) (e0 :: rest) 0
    (m.encode (searchTextOf e0 :: rest.map searchTextOf))
    (searchTextOf e0 :: rest.map searchTextOf)
    (by simp [hlen]) (by simp)
  simp only [List.map_cons] at hout
  refine ⟨out, ?_, hstrip, by simpa using hl⟩
  simp only [mainCore, List.map_cons, hload, exceptBind_ok, htexts,
    pyIndex_cons_zero, hemb, hv0, attachEmbeddings, List.enum]
  exact hout

/-- C2 counterexample: on the empty catalog the claim's universal round trip
fails, because stage 2 crashes at the sample printout `texts[0]` (an
IndexError) before any output is produced, rather than returning the empty
catalog. -/
theorem roundtrip_empty_catalog_cex :
    mainCore envFlagOnly ([] : List (JObj Nat)) = Except.error PyErr.indexError ∧
      mainCore envFlagOnly ([] : List (JObj Nat)) ≠ Except.ok [] := by
  refine ⟨rfl, ?_⟩
  intro h
  rw [show mainCore envFlagOnly ([] : List (JObj Nat)) =
    Except.error PyErr.indexError from rfl] at h
  exact Except.noConfusion h

/-- Concrete round trip through stage 2 on the one-record catalog holding the
scenario record, with the stand-in backend loaded as FlagEmbedding. -/
theorem roundtrip_stage1_shaped_witness :
    (mainCore envFlagOnly ([sineEntry].map recToObj)).map
        (fun out => out.map stripAdded) =
      Except.ok ([sineEntry].map recToObj) := by
  obtain ⟨out, h1, h2, h3⟩ := roundtrip_stage1_shaped envFlagOnly constModel
    "flagembedding" [sineEntry] rfl (fun ts => by simp [constModel])
    (by simp)
  rw [h1, Except.map, h2]
/-- Catalog shape: build_catalog is the concatenation of the six mapped
source tables, in source order. -/
theorem build_catalog_structure :
    build_catalog =
      gm_soundfonts.map gmRecord ++ dirt_samples.map dirtRecord ++
      builtin_synths.map synthRecord ++ drum_machines.map drumRecord ++
      vcsl_instruments.map vcslRecord ++ wavetables.map wtRecord := rfl

/-- C3 (amended): the number of records build_catalog produces equals the sum
of the entry counts of the six source tables: GM soundfonts, Dirt-Samples,
built-in synth oscillators, drum machines, VCSL sample-library instruments,
and wavetables. -/
theorem catalog_count_six_tables :
    build_catalog.length =
      gm_soundfonts.length + dirt_samples.length + builtin_synths.length +
      drum_machines.length + vcsl_instruments.length + wavetables.length := by
  simp only [build_catalog, List.length_append, List.length_map]

set_option maxRecDepth 4000 in
/-- C3 counterexample: the claim's five tables (built-in synths, sample
banks, drum machines, sample-library instruments, wavetables) have 436
entries in total, but build_catalog holds 551 records — the enumeration
misses the GM soundfont table. -/
theorem catalog_count_five_table_cex :
    build_catalog.length ≠
      builtin_synths.length + dirt_samples.length + drum_machines.length +
      vcsl_instruments.length + wavetables.length := by decide

/-- C4 (amended): drum-machine records take the lowercased key as id and VCSL
records take the "vcsl_"-prefixed key — two divergences, not one; records
from the remaining four tables (GM soundfonts, Dirt-Samples, built-in
synths, wavetables) keep their source-table key verbatim, and build_catalog
consists exactly of the six mapped tables. -/
theorem record_id_laws :
    (∀ kv : String × Entry2, (drumRecord kv).id = pyLower kv.1) ∧
    (∀ kv : String × Entry3, (vcslRecord kv).id = "vcsl_" ++ kv.1) ∧
    (∀ kv : String × Entry4, (gmRecord kv).id = kv.1) ∧
    (∀ kv : String × Entry3, (dirtRecord kv).id = kv.1) ∧
    (∀ kv : String × Entry4, (synthRecord kv).id = kv.1) ∧
    (∀ kv : String × Entry3, (wtRecord kv).id = kv.1) ∧
    build_catalog =
      gm_soundfonts.map gmRecord ++ dirt_samples.map dirtRecord ++
      builtin_synths.map synthRecord ++ drum_machines.map drumRecord ++
      vcsl_instruments.map vcslRecord ++ wavetables.map wtRecord :=
  ⟨fun _ => rfl, fun _ => rfl, fun _ => rfl, fun _ => rfl, fun _ => rfl,
   fun _ => rfl, rfl⟩

set_option maxRecDepth 4000 in
/-- C4 counterexample: the record built from VCSL source-table key
"ballwhistle" (record 412 of build_catalog; the name field keeps the key) has
id "vcsl_ballwhistle", not the key verbatim — so the drum machines are not
the only table whose ids differ from the source-table keys. -/
theorem vcsl_id_prefix_cex :
    (build_catalog.get? 412).map SoundEntry.name = some "ballwhistle" ∧
    (build_catalog.get? 412).map SoundEntry.source = some "vcsl" ∧
    (build_catalog.get? 412).map SoundEntry.id = some "vcsl_ballwhistle" ∧
    ("vcsl_ballwhistle" : String) ≠ "ballwhistle" :=
  ⟨rfl, rfl, rfl, by decide⟩

/-- C5 (amended): for every drum-machine table entry, the record's tag
sequence is the entry's tags followed by the two fixed tags "drum-machine"
and "kit"; the twelve kit-piece abbreviations go into the description, not
into the tag list. -/
theorem drum_tags_appended :
    (∀ kv : String × Entry2, (drumRecord kv).tags =
      kv.2.tags ++ ["drum-machine", "kit"]) ∧
    build_catalog =
      gm_soundfonts.map gmRecord ++ dirt_samples.map dirtRecord ++
      builtin_synths.map synthRecord ++ drum_machines.map drumRecord ++
      vcsl_instruments.map vcslRecord ++ wavetables.map wtRecord :=
  ⟨fun _ => rfl, rfl⟩

set_option maxRecDepth 4000 in
/-- C5 counterexample: the first drum-machine record (built from key
"AJKPercusyn", record 340 of build_catalog) has tags ending in
"drum-machine", "kit" — not in the twelve kit-piece abbreviations the claim
appends. -/
theorem drum_tags_cex :
    drum_machines.head?.map (fun kv => kv.2.tags) =
      some ["percusyn", "analog", "synth-drums", "electronic"] ∧
    (build_catalog.get? 340).map SoundEntry.tags =
      some (["percusyn", "analog", "synth-drums", "electronic"] ++
        ["drum-machine", "kit"]) ∧
    ["percusyn", "analog", "synth-drums", "electronic"] ++ ["drum-machine", "kit"] ≠
      ["percusyn", "analog", "synth-drums", "electronic"] ++ kit_sounds :=
  ⟨rfl, rfl, by decide⟩

/-- C6: kit_sounds is exactly the twelve fixed kit-piece abbreviations, every
drum-machine record's description is the source entry's description followed
by the comma-separated kit listing of those twelve, and build_catalog's
drum-machine section consists exactly of such records. -/
theorem drum_description_kit_listing :
    kit_sounds = ["bd", "sd", "hh", "oh", "cp", "lt", "mt", "ht", "cy", "cb",
      "rs", "cr"] ∧
    (∀ kv : String × Entry2, (drumRecord kv).description =
      kv.2.description ++ " Kit includes: " ++
        String.intercalate ", " kit_sounds ++ ".") ∧
    build_catalog =
      gm_soundfonts.map gmRecord ++ dirt_samples.map dirtRecord ++
      builtin_synths.map synthRecord ++ drum_machines.map drumRecord ++
      vcsl_instruments.map vcslRecord ++ wavetables.map wtRecord :=
  ⟨rfl, fun _ => rfl, rfl⟩
/-- C7: backend selection tries the FlagEmbedding binding first and returns
it tagged "flagembedding" when its import succeeds; if that import is
unavailable it falls back to sentence-transformers, tagged
"sentence-transformers"; and when both imports fail the ImportError
propagates unhandled, aborting stage 2. -/
theorem backend_selection_fallback {V : Type} (env : Env V) :
    (∀ m, env.flag = some m →
      load_bge_m3 env = Except.ok (m, "flagembedding")) ∧
    (env.flag = none → ∀ m, env.st = some m →
      load_bge_m3 env = Except.ok (m, "sentence-transformers")) ∧
    (env.flag = none → env.st = none →
      load_bge_m3 env = Except.error PyErr.importError ∧
      ∀ sounds : List (JObj V),
        mainCore env sounds = Except.error PyErr.importError) := by
  refine ⟨?_, ?_, ?_⟩
  · intro m hm; simp [load_bge_m3, hm]
  · intro h1 m h2; simp [load_bge_m3, h1, h2]
  · intro h1 h2
    have hl : load_bge_m3 env = Except.error PyErr.importError := by
      simp [load_bge_m3, h1, h2]
    exact ⟨hl, fun sounds => by simp [mainCore, hl, exceptBind_err]⟩

/-- Concrete check of C7: each of the three import situations, on the
stand-in backend. -/
theorem backend_selection_fallback_witness :
    load_bge_m3 envFlagOnly = Except.ok (constModel, "flagembedding") ∧
    load_bge_m3 envStOnly = Except.ok (constModel, "sentence-transformers") ∧
    mainCore envNone [sineObj] = Except.error PyErr.importError :=
  ⟨(backend_selection_fallback envFlagOnly).1 constModel rfl,
   (backend_selection_fallback envStOnly).2.1 rfl constModel rfl,
   ((backend_selection_fallback envNone).2.2 rfl rfl).2 [sineObj]⟩

/-- A call that finds the cache populated leaves it untouched and uses the
cached handle and tag. -/
theorem generate_embedding_populated {V : Type} (env : Env V) (c : Cache V)
    (m : Model V) (hm : c.model = some m) (t : String) :
    generate_embedding env c t = (embedOne m c.backend t, c) := by
  simp [generate_embedding, hm]

/-- A call sequence starting from a populated cache never runs the loader and
never changes the cache. -/
theorem runCalls_populated {V : Type} (env : Env V) (c : Cache V) (m : Model V)
    (hm : c.model = some m) : ∀ ts, runCalls env c ts = (c, 0) := by
  intro ts
  induction ts with
  | nil => rfl
  | cons t ts ih =>
    simp [runCalls, generate_embedding_populated env c m hm, hm, ih]

/-- C9 (amended): once the cache holds a model handle, every later call uses
that handle and tag, leaves the cache untouched, and never runs the loader;
an empty-cache call under a loadable environment populates the cache with the
load result; and across any call sequence under a loadable environment the
loader runs at most once.  (When both imports fail, each failing call leaves
the cache empty and retries the loader — see the counterexample.) -/
theorem model_cache_laws {V : Type} (env : Env V) (c : Cache V) :
    (∀ m, c.model = some m →
      (∀ t, generate_embedding env c t = (embedOne m c.backend t, c)) ∧
      (∀ ts, runCalls env c ts = (c, 0))) ∧
    (∀ m b, load_bge_m3 env = Except.ok (m, b) →
      (c.model = none → ∀ t,
        (generate_embedding env c t).2 = (⟨some m, some b⟩ : Cache V)) ∧
      (∀ ts, (runCalls env c ts).2 ≤ 1)) := by
  constructor
  · intro m hm
    exact ⟨fun t => generate_embedding_populated env c m hm t,
      runCalls_populated env c m hm⟩
  · intro m b hload
    constructor
    · intro hc t
      simp [generate_embedding, hc, hload]
    · intro ts
      cases ts with
      | nil => simp [runCalls]
      | cons t ts =>
        cases hc : c.model with
        | some m2 => rw [runCalls_populated env c m2 hc (t :: ts)]; simp
        | none =>
          have hg : generate_embedding env c t =
              (embedOne m (some b) t, (⟨some m, some b⟩ : Cache V)) := by
            simp [generate_embedding, hc, hload]
          have hrest := runCalls_populated env (⟨some m, some b⟩ : Cache V) m rfl ts
          simp [runCalls, hg, hrest, hc]

/-- Concrete check of C9: with the cache already populated, two calls keep it
untouched with zero loader runs; from the empty cache under a loadable
environment, two calls run the loader at most once. -/
theorem model_cache_laws_witness :
    runCalls envNone cachePopulated ["a", "b"] = (cachePopulated, 0) ∧
    (runCalls envFlagOnly emptyCache ["a", "b"]).2 ≤ 1 :=
  ⟨((model_cache_laws envNone cachePopulated).1 constModel rfl).2 ["a", "b"],
   ((model_cache_laws envFlagOnly emptyCache).2 constModel "flagembedding"
     rfl).2 ["a", "b"]⟩

/-- C9 counterexample: when neither backend imports, a failing call leaves
the cache empty, so the next call runs the loader again — two calls in one
process run it twice, refuting "the model loader runs at most once" as an
unconditional per-process bound. -/
theorem loader_runs_twice_cex :
    (runCalls envNone emptyCache ["a", "b"]).2 = 2 ∧
      ¬ (runCalls envNone emptyCache ["a", "b"]).2 ≤ 1 :=
  ⟨rfl, by decide⟩

/-- C10: the single-text entry point returns exactly element 0 of the batch
embedding path of the cached backend run on the one-element list [t]; in
particular, when that batch returns a first vector v, the call returns v. -/
theorem single_text_uses_batch_path {V : Type} (env : Env V) (c : Cache V)
    (t : String) :
    (∀ m, c.model = some m →
      (generate_embedding env c t).1 =
        pyIndex (if c.backend = some "flagembedding"
          then generate_embeddings_flagembedding m [t]
          else generate_embeddings_sentence_transformers m [t]) 0) ∧
    (∀ m, c.model = some m → ∀ v rest,
      (if c.backend = some "flagembedding"
        then generate_embeddings_flagembedding m [t]
        else generate_embeddings_sentence_transformers m [t]) = v :: rest →
      (generate_embedding env c t).1 = Except.ok v) := by
  constructor
  · intro m hm
    simp [generate_embedding_populated env c m hm, embedOne]
  · intro m hm v rest hv
    simp [generate_embedding_populated env c m hm, embedOne, hv, pyIndex]

/-- Concrete check of C10: with the stand-in backend cached under the
"flagembedding" tag, embedding one query returns the single batch vector. -/
theorem single_text_uses_batch_path_witness :
    (generate_embedding envFlagOnly cachePopulated "query").1 = Except.ok 0 :=
  (single_text_uses_batch_path envFlagOnly cachePopulated "query").2 constModel
    rfl 0 [] rfl
/-- A serialized stage-1 record is not missing any expected field. -/
theorem recToObj_not_missing {V : Type} (e : SoundEntry) :
    ¬ missingExpectedField (recToObj e : JObj V) := by
  rintro ⟨k, hk, hnone⟩
  simp only [expectedFields, List.mem_cons, List.not_mem_nil, or_false] at hk
  rcases hk with rfl | rfl | rfl | rfl | rfl
  · rw [show (recToObj e : JObj V).lookup "name" = some (Val.str e.name)
      from rfl] at hnone
    exact Option.noConfusion hnone
  · rw [show (recToObj e : JObj V).lookup "description" =
      some (Val.str e.description) from rfl] at hnone
    exact Option.noConfusion hnone
  · rw [show (recToObj e : JObj V).lookup "category" =
      some (Val.str e.category) from rfl] at hnone
    exact Option.noConfusion hnone
  · rw [show (recToObj e : JObj V).lookup "source" = some (Val.str e.source)
      from rfl] at hnone
    exact Option.noConfusion hnone
  · rw [show (recToObj e : JObj V).lookup "tags" = some (Val.strList e.tags)
      from rfl] at hnone
    exact Option.noConfusion hnone

/-- On a record missing an expected field, `build_search_text` raises a
KeyError naming a missing expected field — the first one in access order. -/
theorem bst_missing {V : Type} (o : JObj V) (h : missingExpectedField o) :
    ∃ k, k ∈ expectedFields ∧ o.lookup k = none ∧
      build_search_text o = Except.error (PyErr.keyError k) := by
  rcases h1 : o.lookup "name" with _ | v1
  · exact ⟨"name", by simp [expectedFields], h1,
      by simp [build_search_text, getItem, h1, exceptBind_err]⟩
  rcases h2 : o.lookup "description" with _ | v2
  · exact ⟨"description", by simp [expectedFields], h2,
      by simp [build_search_text, getItem, h1, h2, exceptBind_ok, exceptBind_err]⟩
  rcases h3 : o.lookup "category" with _ | v3
  · exact ⟨"category", by simp [expectedFields], h3,
      by simp [build_search_text, getItem, h1, h2, h3, exceptBind_ok,
        exceptBind_err]⟩
  rcases h4 : o.lookup "source" with _ | v4
  · exact ⟨"source", by simp [expectedFields], h4,
      by simp [build_search_text, getItem, h1, h2, h3, h4, exceptBind_ok,
        exceptBind_err]⟩
  rcases h5 : o.lookup "tags" with _ | v5
  · exact ⟨"tags", by simp [expectedFields], h5,
      by simp [build_search_text, getItem, h1, h2, h3, h4, h5, exceptBind_ok,
        exceptBind_err]⟩
  obtain ⟨k, hk, hnone⟩ := h
  simp only [expectedFields, List.mem_cons, List.not_mem_nil, or_false] at hk
  rcases hk with rfl | rfl | rfl | rfl | rfl
  · rw [h1] at hnone; exact Option.noConfusion hnone
  · rw [h2] at hnone; exact Option.noConfusion hnone
  · rw [h3] at hnone; exact Option.noConfusion hnone
  · rw [h4] at hnone; exact Option.noConfusion hnone
  · rw [h5] at hnone; exact Option.noConfusion hnone

/-- Deriving the search texts of a catalog in which every record is either
stage-1-shaped or missing an expected field, with at least one of the latter,
stops at a KeyError for a missing expected field. -/
theorem mapExcept_bst_missing {V : Type} :
    ∀ sounds : List (JObj V),
    (∀ s ∈ sounds, (∃ e, s = recToObj e) ∨ missingExpectedField s) →
    (∃ s ∈ sounds, missingExpectedField s) →
    ∃ k, k ∈ expectedFields ∧
      mapExcept build_search_text sounds = Except.error (PyErr.keyError k) := by
  intro sounds
  induction sounds with
  | nil => intro _ h; simp at h
  | cons s rest ih =>
    intro hwf hmiss
    rcases hwf s (List.mem_cons_self s rest) with ⟨e, rfl⟩ | hm
    · have hmr : ∃ s2 ∈ rest, missingExpectedField s2 := by
        rcases hmiss with ⟨s2, hs2, hm2⟩
        rcases List.mem_cons.mp hs2 with rfl | hin
        · exact absurd hm2 (recToObj_not_missing e)
        · exact ⟨s2, hin, hm2⟩
      obtain ⟨k, hk, herr⟩ := ih (fun x hx => hwf x (List.mem_cons_of_mem _ hx)) hmr
      exact ⟨k, hk, by simp [mapExcept, bst_recToObj, herr, exceptBind_ok,
        exceptBind_err]⟩
    · obtain ⟨k, hk, _, herr⟩ := bst_missing s hm
      exact ⟨k, hk, by simp [mapExcept, herr, exceptBind_err]⟩

/-- C8: on a catalog in which some record is missing an expected field (and
the records are otherwise stage-1-shaped), stage 2 with a loadable backend
fails fatally with a key-lookup error naming an expected field, raised at the
first access to a missing field, and no output is produced — there is no
validation layer before the access. -/
theorem missing_field_keyerror {V : Type} (env : Env V) (m : Model V)
    (b : String) (sounds : List (JObj V))
    (hload : load_bge_m3 env = Except.ok (m, b))
    (hwf : ∀ s ∈ sounds, (∃ e, s = recToObj e) ∨ missingExpectedField s)
    (hmiss : ∃ s ∈ sounds, missingExpectedField s) :
    ∃ k, k ∈ expectedFields ∧
      mainCore env sounds = Except.error (PyErr.keyError k) := by
  obtain ⟨k, hk, herr⟩ := mapExcept_bst_missing sounds hwf hmiss
  exact ⟨k, hk, by simp [mainCore, hload, herr, exceptBind_ok, exceptBind_err]⟩

/-- Concrete check of C8: a two-record catalog whose second record has only a
name field makes stage 2 fail (no output value is produced). -/
theorem missing_field_keyerror_witness :
    (mainCore envFlagOnly [sineObj, badObj]).isOk = false := by
  have hwf : ∀ s ∈ ([sineObj, badObj] : List (JObj Nat)),
      (∃ e, s = recToObj e) ∨ missingExpectedField s := by
    intro s hs
    simp only [List.mem_cons, List.not_mem_nil, or_false] at hs
    rcases hs with rfl | rfl
    · exact Or.inl ⟨sineEntry, rfl⟩
    · exact Or.inr ⟨"description", by simp [expectedFields], rfl⟩
  have hmiss : ∃ s ∈ ([sineObj, badObj] : List (JObj Nat)),
      missingExpectedField s :=
    ⟨badObj, by simp, "description", by simp [expectedFields], rfl⟩
  obtain ⟨k, _, herr⟩ := missing_field_keyerror envFlagOnly constModel
    "flagembedding" [sineObj, badObj] rfl hwf hmiss
  rw [herr]
  rfl
